import Mathlib

/-!
# oSnap: snapshot lifecycle of oVirt virtual machines

A shallow embedding of `main.go` and `api/api.go`.

Modelling conventions.

* A Go `string` is a Lean `String` (a sequence of code points); `len(s) == 0`
  is emptiness, and `strings.HasPrefix` / `strings.HasSuffix` follow the
  definitions of the Go standard library, on code points.
* The REST client (`ovirt_api.ApiClient`) is an arbitrary deterministic state
  machine `Platform σ`: every call takes the platform state and returns the
  parsed response (or an error) with the next state.
* A `World σ` is the platform state together with the trace of the observable
  events the program has produced so far: the requests sent and the sleeps.
* A pointer that may be `nil` is an `Option`; dereferencing `nil` is the
  outcome `Outcome.panicked`.
* The unbounded `for` loop of `waitForCompletion` takes fuel; `none` means the
  fuel ran out before the loop returned.
* What `log.Printf` prints is not modelled, but the evaluation of its
  arguments is (it can dereference a nil pointer).
-/

namespace OSnap

/-! ## Data model -/

/-- Modelled from the spec: the Cluster record (identifier and display name);
its Go type declaration is not among the source files. The field names are
the ones `api.go` reads (`cluster.Id`, `cluster.Name`). -/
structure Cluster where
  Id : String := ""
  Name : String := ""
deriving DecidableEq

/-- Modelled from the spec: the VM record (identifier, display name, cluster
reference); its Go type declaration is not among the source files. The field
names are the ones the sources read (`vm.ID`, `v.Name`, `v.Cluster.Id`). -/
structure Vm where
  ID : String := ""
  Name : String := ""
  Cluster : OSnap.Cluster := {}
deriving DecidableEq

/-- Modelled from the spec: the Snapshot record (identifier, owning VM
reference, description, status, persist-memory-state flag); its Go type
declaration is not among the source files. The field names are the ones the
sources read. Every field defaults to its Go zero value. -/
structure Snapshot where
  ID : String := ""
  Description : String := ""
  Status : String := ""
  PersistMemoryState : Bool := false
  VM : Vm := {}
deriving DecidableEq

/-- A Go `error` value, told apart by where it was made. -/
inductive GoError where
  /-- An error returned by a library call (REST client, `encoding/xml`, `regexp`). -/
  | lib (msg : String)
  /-- An error built by `fmt.Errorf` in this program. -/
  | errorf (msg : String)
deriving DecidableEq

/-- The method `Error()` of a Go error: its message. -/
def GoError.Error : GoError → String
  | .lib msg => msg
  | .errorf msg => msg

/-- An observable event of a run. -/
inductive Event where
  /-- A request sent through the REST client. -/
  | request (method path : String) (body : Option String)
  /-- A call `time.Sleep(seconds * time.Second)`. -/
  | sleep (seconds : Nat)
deriving DecidableEq

/-- The result of a Go call that may panic. -/
inductive Outcome (α : Type) where
  | returned (a : α)
  | panicked (msg : String)
deriving DecidableEq

/-- The REST client and the XML encoder, as the program uses them. Each
`sendAndParse*` field is `client.SendAndParse(path, method, &target, body)` for
one type of `target`; `sendRequest` is `client.SendRequest(path, method, nil)`.
A library reports an error by its message; the program receives it as the
error value `GoError.lib`. -/
structure Platform (σ : Type) where
  xmlMarshal : Snapshot → Except String String
  sendAndParseVms : String → String → σ → Except String (List Vm) × σ
  sendAndParseClusters : String → String → σ → Except String (List Cluster) × σ
  sendAndParseSnapshot : String → String → Option String → σ → Except String Snapshot × σ
  sendAndParseSnapshots : String → String → σ → Except String (List Snapshot) × σ
  sendRequest : String → String → σ → Except String Unit × σ

/-- The platform state and the events produced so far. -/
structure World (σ : Type) where
  plat : σ
  trace : List Event

/-- The world after one more event on platform state `s`. -/
def World.step {σ : Type} (w : World σ) (s : σ) (e : Event) : World σ :=
  ⟨s, w.trace ++ [e]⟩

/-! ## Go standard library -/

/-- Go `strings.HasPrefix`: `len(s) >= len(p) && s[:len(p)] == p`. -/
def HasPrefix (s p : String) : Bool :=
  decide (s.length ≥ p.length) && (s.data.take p.length == p.data)

/-- Go `strings.HasSuffix`: `len(s) >= len(x) && s[len(s)-len(x):] == x`. -/
def HasSuffix (s x : String) : Bool :=
  decide (s.length ≥ x.length) && (s.data.drop (s.length - x.length) == x.data)

/-- Go `fmt.tooLarge`. -/
def tooLarge (x : Nat) : Bool := decide (x > 1000000)

/-- Go `fmt.parsenum` on the remaining input: whether a number was read, and
the input after it. On overflow the rest of the input is consumed. -/
def parsenum : List Char → Nat → Bool → Bool × List Char
  | [], _, isnum => (isnum, [])
  | c :: cs, num, isnum =>
    if '0' ≤ c ∧ c ≤ '9' then
      if tooLarge num then (false, [])
      else parsenum cs (num * 10 + (c.toNat - '0'.toNat)) true
    else (isnum, c :: cs)

/-- Go `fmt.parseArgNumber` on the input that starts with `[`: the number of
characters to skip and whether a well-formed index was read. -/
def parseArgNumber (format : List Char) : Nat × Bool :=
  if format.length < 3 then (1, false)
  else
    match (format.drop 1).indexOf? ']' with
    | none => (1, false)
    | some j =>
      let i := j + 1
      let r := parsenum ((format.drop 1).take j) 0 false
      if !r.1 || !r.2.isEmpty then (i + 1, false) else (i + 1, true)

/-- Go `(*pp).argNumber` when there are no operands: the input after the
index, whether an index was found, and whether the argument number is still
good. With no operands every index is out of range. -/
def argNumber (format : List Char) (good : Bool) : List Char × Bool × Bool :=
  match format with
  | '[' :: _ =>
    let r := parseArgNumber format
    (format.drop r.1, r.2, false)
  | _ => (format, false, good)

/-- The flag characters of a formatting directive. -/
def isFlag (c : Char) : Bool :=
  c == '#' || c == '0' || c == '+' || c == '-' || c == ' '

/-- One formatting directive of Go `(*pp).doPrintf` when there are no
operands, on the input after the `%`: the text written and the input left
(`none` when the directive ends the formatting). A dot opens a precision only
when a character follows it (`i+1 < end`); a dot that ends the format is the
verb. -/
def directive (format : List Char) : List Char × Option (List Char) :=
  let f0 := format.dropWhile isFlag
  let (f1, afterIndex1, good1) := argNumber f0 true
  -- width
  let (out2, f2, afterIndex2, good2) :=
    match f1 with
    | '*' :: rest => ("%!(BADWIDTH)".data, rest, false, good1)
    | _ =>
      let r := parsenum f1 0 false
      ([], r.2, afterIndex1, good1 && !(afterIndex1 && r.1))
  -- precision
  let (out3, f3, afterIndex3, good3) :=
    match f2 with
    | '.' :: c :: rest1 =>
      let goodA := good2 && !afterIndex2
      let (g1, afterIndexB, goodB) := argNumber (c :: rest1) goodA
      match g1 with
      | '*' :: rest2 => ("%!(BADPREC)".data, rest2, false, goodB)
      | _ =>
        let r := parsenum g1 0 false
        ([], r.2, afterIndexB, goodB)
    | _ => ([], f2, afterIndex2, good2)
  let (f4, good4) :=
    if afterIndex3 then (f3, good3)
    else let r := argNumber f3 good3; (r.1, r.2.2)
  match f4 with
  | [] => (out2 ++ out3 ++ "%!(NOVERB)".data, none)
  | verb :: rest =>
    let body :=
      if verb == '%' then ['%']
      else if !good4 then '%' :: '!' :: verb :: "(BADINDEX)".data
      else '%' :: '!' :: verb :: "(MISSING)".data
    (out2 ++ out3 ++ body, some rest)

/-- Go `(*pp).doPrintf(format, nil)`: the formatting loop with no operands. -/
def doPrintf : Nat → List Char → List Char
  | 0, _ => []
  | _ + 1, [] => []
  | fuel + 1, c :: cs =>
    if c == '%' then
      match directive cs with
      | (out, none) => out
      | (out, some rest) => out ++ doPrintf fuel rest
    else c :: doPrintf fuel cs

/-- Go `fmt.Sprintf(format)` with no operands. -/
def Sprintf (format : String) : String :=
  ⟨doPrintf (format.length + 1) format.data⟩

/-- Go `fmt.Errorf(format)` with no operands. -/
def Errorf (format : String) : GoError :=
  .errorf (Sprintf format)

/-! ## `api/api.go` -/

/-- The constant `snapshotSuffix`. -/
def snapshotSuffix : String := " - created by oSnap"

/-- Function `(*Api).getClusterId`. -/
def getClusterId {σ : Type} (P : Platform σ) (name : String) (w : World σ) :
    Except GoError String × World σ :=
  if name.length == 0 then (.ok "", w)
  else
    let path := "clusters?search=" ++ name
    let r := P.sendAndParseClusters path "GET" w.plat
    let w1 := w.step r.2 (.request "GET" path none)
    match r.1 with
    | .error err => (.error (.lib err), w1)
    | .ok clusters =>
      match clusters.find? (fun cluster => cluster.Name == name) with
      | some cluster => (.ok cluster.Id, w1)
      | none => (.error (.errorf ("Unknown cluster " ++ name)), w1)

/-- Function `(*Api).GetVms`. -/
def GetVms {σ : Type} (P : Platform σ) (clusterFilter vmFilter : String) (w : World σ) :
    Except GoError (List Vm) × World σ :=
  match getClusterId P clusterFilter w with
  | (.error err, w1) => (.error err, w1)
  | (.ok clusterId, w1) =>
    let r := P.sendAndParseVms "vms" "GET" w1.plat
    let w2 := w1.step r.2 (.request "GET" "vms" none)
    match r.1 with
    | .error err => (.error (.lib err), w2)
    | .ok vms =>
      (.ok (vms.filter (fun v =>
        (v.Cluster.Id == clusterId || clusterFilter.length == 0) &&
        (v.Name == vmFilter || vmFilter.length == 0))), w2)

/-- The value `&Snapshot{Description: desc + snapshotSuffix, PersistMemoryState: false}`
that `CreateSnapshot` marshals into the request body. -/
def createRequest (desc : String) : Snapshot :=
  { Description := desc ++ snapshotSuffix, PersistMemoryState := false }

/-- Function `(*Api).CreateSnapshot`. The request body is what `xml.Marshal`
returns for the snapshot value; the print under `c.debug` is log output. -/
def CreateSnapshot {σ : Type} (P : Platform σ) (vmId desc : String) (w : World σ) :
    Except GoError Snapshot × World σ :=
  let s := createRequest desc
  match P.xmlMarshal s with
  | .error err => (.error (.lib err), w)
  | .ok b =>
    let path := "vms/" ++ vmId ++ "/snapshots"
    let r := P.sendAndParseSnapshot path "POST" (some b) w.plat
    let w1 := w.step r.2 (.request "POST" path (some b))
    match r.1 with
    | .error err => (.error (.lib err), w1)
    | .ok res => (.ok res, w1)

/-- Function `(*Api).GetSnapshot`. -/
def GetSnapshot {σ : Type} (P : Platform σ) (vmId snapshotid : String) (w : World σ) :
    Except GoError Snapshot × World σ :=
  let path := "vms/" ++ vmId ++ "/snapshots/" ++ snapshotid
  let r := P.sendAndParseSnapshot path "GET" none w.plat
  let w1 := w.step r.2 (.request "GET" path none)
  match r.1 with
  | .error err => (.error (.lib err), w1)
  | .ok res => (.ok res, w1)

/-- Function `(*Api).GetCreatedSnapshots`. -/
def GetCreatedSnapshots {σ : Type} (P : Platform σ) (vmId : String) (w : World σ) :
    Except GoError (List Snapshot) × World σ :=
  let path := "vms/" ++ vmId ++ "/snapshots"
  let r := P.sendAndParseSnapshots path "GET" w.plat
  let w1 := w.step r.2 (.request "GET" path none)
  match r.1 with
  | .error err => (.error (.lib err), w1)
  | .ok res => (.ok (res.filter (fun s => HasSuffix s.Description snapshotSuffix)), w1)

/-- Function `(*Api).DeleteSnapshot`. -/
def DeleteSnapshot {σ : Type} (P : Platform σ) (vmId snapShotId : String) (w : World σ) :
    Option GoError × World σ :=
  let path := "vms/" ++ vmId ++ "/snapshots/" ++ snapShotId
  let r := P.sendRequest path "DELETE" w.plat
  let w1 := w.step r.2 (.request "DELETE" path none)
  match r.1 with
  | .error err => (some (.lib err), w1)
  | .ok _ => (none, w1)

/-! ## `main.go` -/

/-- The command-line flags of `main.go`. -/
structure Flags where
  apiURL : String := "https://localhost/ovirt-engine/api/"
  apiUser : String := "user@internal"
  apiPass : String := ""
  apiInsecureCert : Bool := false
  cluster : String := ""
  vm : String := ""
  skip : String := ""
  desc : String := "oSnap generated snapshot"
  keep : Int := 7
  debug : Bool := false
  purgeOnly : Bool := false

/-- A compiled Go `*regexp.Regexp`, kept as its source text. -/
structure Regexp where
  expr : String
deriving DecidableEq

/-- The value `*api.Api` as `main.go` uses it: `getAPI` stores the three
filters on it. (The declaration in `api.go` has the fields `debug` and
`client` only; the client is the `Platform`.) -/
structure Api where
  debug : Bool := false
  ClusterFilter : String := ""
  VMFilter : Option Regexp := none
  SkipFilter : Option Regexp := none
deriving DecidableEq

/-- What `main.go` calls and the source files do not define: the constructor
of the REST client, `regexp.Compile`, the method `GetVms` without arguments
(the `GetVms` of `api.go` takes the two filters as strings), and
`purgeOldSnapshots`. They are parameters of the embedding. -/
structure Deps (σ : Type) where
  NewClient : String → String → String → Bool → Option String
  regexpCompile : String → Except String Regexp
  GetVms : Api → World σ → Except GoError (List Vm) × World σ
  purgeOldSnapshots : List Vm → Api → World σ → Int × World σ

/-- Function `api.New`. -/
def New {σ : Type} (D : Deps σ) (url user pass : String) (insecureCert debug : Bool) :
    Except GoError Api :=
  match D.NewClient url user pass insecureCert with
  | some err => .error (.lib err)
  | none => .ok { debug := debug }

/-- Function `getAPI`. -/
def getAPI {σ : Type} (D : Deps σ) (fl : Flags) : Except GoError Api :=
  match New D fl.apiURL fl.apiUser fl.apiPass fl.apiInsecureCert fl.debug with
  | .error err => .error err
  | .ok a0 =>
    let a1 := { a0 with ClusterFilter := fl.cluster }
    let r2 : Except GoError Api :=
      if fl.vm.length > 0 then
        match D.regexpCompile fl.vm with
        | .error err => .error (.lib err)
        | .ok re => .ok { a1 with VMFilter := some re }
      else .ok a1
    match r2 with
    | .error err => .error err
    | .ok a2 =>
      if fl.skip.length > 0 then
        match D.regexpCompile fl.skip with
        | .error err => .error (.lib err)
        | .ok re => .ok { a2 with SkipFilter := some re }
      else .ok a2

/-- The message of the panic raised by reading a field through a nil pointer. -/
def nilDereference : String :=
  "runtime error: invalid memory address or nil pointer dereference"

/-- The path `waitForCompletion` polls for a snapshot job. -/
def pollPath (snapshot : Snapshot) : String :=
  "vms/" ++ snapshot.VM.ID ++ "/snapshots/" ++ snapshot.ID

/-- The `for` loop of `waitForCompletion`, with fuel. -/
def waitLoop {σ : Type} (P : Platform σ) (snapshot : Snapshot) :
    Nat → World σ → Option (Outcome (Except GoError Snapshot) × World σ)
  | 0, _ => none
  | fuel + 1, w =>
    match GetSnapshot P snapshot.VM.ID snapshot.ID w with
    | (.error err, w1) => some (.returned (.error err), w1)
    | (.ok s, w1) =>
      if HasPrefix s.Status "fail" || HasPrefix s.Status "error" then
        some (.returned (.error (Errorf s.Status)), w1)
      else if s.Status == "ok" then
        some (.returned (.ok s), w1)
      else
        waitLoop P snapshot fuel ⟨w1.plat, w1.trace ++ [.sleep 30]⟩

/-- Function `waitForCompletion`. Its first statement reads `snapshot.ID`. -/
def waitForCompletion {σ : Type} (P : Platform σ) (fuel : Nat) (snapshot : Option Snapshot)
    (w : World σ) : Option (Outcome (Except GoError Snapshot) × World σ) :=
  match snapshot with
  | none => some (.panicked nilDereference, w)
  | some sn => waitLoop P sn fuel w

/-- The `for` loop of `monitorSnapshotCreation`; `complete` is the slice built so far. -/
def monitorLoop {σ : Type} (P : Platform σ) (fuel : Nat) :
    List (Option Snapshot) → List Vm → World σ → Option (Outcome (List Vm) × World σ)
  | [], complete, w => some (.returned complete, w)
  | s :: rest, complete, w =>
    match waitForCompletion P fuel s w with
    | none => none
    | some (.panicked msg, w1) => some (.panicked msg, w1)
    | some (.returned (.error _), w1) => monitorLoop P fuel rest complete w1
    | some (.returned (.ok x), w1) => monitorLoop P fuel rest (complete ++ [x.VM]) w1

/-- Function `monitorSnapshotCreation`. -/
def monitorSnapshotCreation {σ : Type} (P : Platform σ) (fuel : Nat)
    (snapshots : List (Option Snapshot)) (w : World σ) :
    Option (Outcome (List Vm) × World σ) :=
  monitorLoop P fuel snapshots [] w

/-- The `for` loop of `createSnapshots`; `snapshots` is the slice built so far.
After a failed `CreateSnapshot` the loop body goes on: it appends the nil
pointer and reads `s.ID`. -/
def createLoop {σ : Type} (P : Platform σ) (desc : String) :
    List Vm → List (Option Snapshot) → World σ → Outcome (List (Option Snapshot)) × World σ
  | [], snapshots, w => (.returned snapshots, w)
  | vm :: rest, snapshots, w =>
    let r := CreateSnapshot P vm.ID desc w
    let s : Option Snapshot :=
      match r.1 with
      | .error _ => none
      | .ok res => some res
    let snapshots1 := snapshots ++ [s]
    match s with
    | none => (.panicked nilDereference, r.2)
    | some _ => createLoop P desc rest snapshots1 r.2

/-- Function `createSnapshots`. -/
def createSnapshots {σ : Type} (P : Platform σ) (fuel : Nat) (desc : String) (vms : List Vm)
    (w : World σ) : Option (Outcome (List Vm) × World σ) :=
  match createLoop P desc vms [] w with
  | (.panicked msg, w1) => some (.panicked msg, w1)
  | (.returned snapshots, w1) => monitorSnapshotCreation P fuel snapshots w1

/-- Function `run`; the result is the returned `error` (`none` is `nil`). -/
def run {σ : Type} (D : Deps σ) (P : Platform σ) (fl : Flags) (fuel : Nat) (w : World σ) :
    Option (Outcome (Option GoError) × World σ) :=
  match getAPI D fl with
  | .error err => some (.returned (some err), w)
  | .ok a =>
    match D.GetVms a w with
    | (.error err, w1) => some (.returned (some err), w1)
    | (.ok vms, w1) =>
      let created : Option (Outcome (List Vm) × World σ) :=
        if !fl.purgeOnly then createSnapshots P fuel fl.desc vms w1
        else some (.returned [], w1)
      match created with
      | none => none
      | some (.panicked msg, w2) => some (.panicked msg, w2)
      | some (.returned snapped, w2) =>
        let r := if fl.purgeOnly then D.purgeOldSnapshots vms a w2
                 else D.purgeOldSnapshots snapped a w2
        if r.1 != (vms.length : Int) then
          some (.returned (some (Errorf
            "One or more errors occurred. See output above for more detail.")), r.2)
        else some (.returned none, r.2)

/-! ## Managed snapshots -/

/-- A platform for the examples about snapshot lists: every VM has one tagged
and one untagged snapshot. -/
def listingPlatform : Platform Unit where
  xmlMarshal s := .ok s.Description
  sendAndParseVms _ _ u := (.ok [], u)
  sendAndParseClusters _ _ u := (.ok [], u)
  sendAndParseSnapshot _ _ _ u := (.ok {}, u)
  sendAndParseSnapshots _ _ u :=
    (.ok [{ ID := "s1", Description := "nightly - created by oSnap" },
          { ID := "s2", Description := "before upgrade" }], u)
  sendRequest _ _ u := (.ok (), u)

/-! ## Cluster resolution and VM selection -/

/-- A platform for the examples about clusters and the VM inventory: two
clusters, and three VMs of which two are in cluster `c1`. -/
def inventoryPlatform : Platform Unit where
  xmlMarshal s := .ok s.Description
  sendAndParseVms _ _ u :=
    (.ok [{ ID := "1", Name := "web1", Cluster := { Id := "c1" } },
          { ID := "2", Name := "web", Cluster := { Id := "c1" } },
          { ID := "3", Name := "db", Cluster := { Id := "c2" } }], u)
  sendAndParseClusters _ _ u :=
    (.ok [{ Id := "c1", Name := "prod" }, { Id := "c2", Name := "test" }], u)
  sendAndParseSnapshot _ _ _ u := (.ok {}, u)
  sendAndParseSnapshots _ _ u := (.ok [], u)
  sendRequest _ _ u := (.ok (), u)

/-! ## Completion monitor -/

/-- The request by which `waitForCompletion` polls a job. -/
def pollEvent (sn : Snapshot) : Event :=
  .request "GET" (pollPath sn) none

/-- The platform state before poll number `n` (from 0) of the job `sn`, when
the polling starts in state `s` and nothing else talks to the platform. -/
def pollState {σ : Type} (P : Platform σ) (sn : Snapshot) (s : σ) : Nat → σ
  | 0 => s
  | n + 1 => (P.sendAndParseSnapshot (pollPath sn) "GET" none (pollState P sn s n)).2

/-- The result of poll number `n` (from 0) of the job `sn`. -/
def pollResult {σ : Type} (P : Platform σ) (sn : Snapshot) (s : σ) (n : Nat) :
    Except String Snapshot :=
  (P.sendAndParseSnapshot (pollPath sn) "GET" none (pollState P sn s n)).1

/-- The claim's notion of a terminal poll: a transport error, the status "ok",
or a status that begins with "fail" or "error". -/
def isTerminal : Except String Snapshot → Bool
  | .error _ => true
  | .ok x => x.Status == "ok" || HasPrefix x.Status "fail" || HasPrefix x.Status "error"

/-- The claim's outcome of a terminal poll: Succeeded with the polled snapshot
when the status is "ok"; the transport error itself; otherwise Failed with the
error made from the status. -/
def terminalOutcome : Except String Snapshot → Except GoError Snapshot
  | .error e => .error (.lib e)
  | .ok x => if x.Status = "ok" then .ok x else .error (Errorf x.Status)

/-- The events of a wait that resolves at poll number `k` (from 0): `k` times
a poll and a 30 second sleep, then the last poll. -/
def waitTrace (sn : Snapshot) : Nat → List Event
  | 0 => [pollEvent sn]
  | k + 1 => pollEvent sn :: .sleep 30 :: waitTrace sn k

/-- A platform for the examples about polling; its state counts the polls
answered so far. Snapshot `s1` of VM `1` is pending until two polls have been
answered and `ok` from then on; snapshot `s2` of VM `2` has failed. -/
def pollingPlatform : Platform Nat where
  xmlMarshal s := .ok s.Description
  sendAndParseVms _ _ n := (.ok [{ ID := "1", Name := "a", Cluster := { Id := "c1" } }], n)
  sendAndParseClusters _ _ n := (.ok [{ Id := "c1", Name := "c1" }], n)
  sendAndParseSnapshot path method _ n :=
    if method == "POST" then
      (.ok { ID := "s1", Status := "pending", VM := { ID := "1", Name := "a" } }, n)
    else if path == "vms/1/snapshots/s1" then
      (.ok { ID := "s1", Status := if n < 2 then "pending" else "ok",
             VM := { ID := "1", Name := "a" } }, n + 1)
    else if path == "vms/2/snapshots/s2" then
      (.ok { ID := "s2", Status := "failed", VM := { ID := "2", Name := "b" } }, n + 1)
    else (.error "not found", n + 1)
  sendAndParseSnapshots _ _ n := (.ok [], n)
  sendRequest _ _ n := (.ok (), n)

/-- The job of snapshot `s1` of VM `1`, as created. -/
def jobS1 : Snapshot :=
  { ID := "s1", Status := "pending", VM := { ID := "1", Name := "a" } }

/-- The job of snapshot `s2` of VM `2`, as created. -/
def jobS2 : Snapshot :=
  { ID := "s2", Status := "pending", VM := { ID := "2", Name := "b" } }

/-- A platform on which snapshot `s2` of VM `2` has failed and the poll of
snapshot `s1` of VM `1` answers `ok` with a snapshot that carries VM `2`. -/
def misreportingPlatform : Platform Unit where
  xmlMarshal s := .ok s.Description
  sendAndParseVms _ _ u := (.ok [], u)
  sendAndParseClusters _ _ u := (.ok [], u)
  sendAndParseSnapshot path _ _ u :=
    if path == "vms/2/snapshots/s2" then
      (.ok { ID := "s2", Status := "failed", VM := { ID := "2", Name := "b" } }, u)
    else
      (.ok { ID := "s1", Status := "ok", VM := { ID := "2", Name := "b" } }, u)
  sendAndParseSnapshots _ _ u := (.ok [], u)
  sendRequest _ _ u := (.ok (), u)

/-- A platform on which every poll of a snapshot reports the status
"error 100%". -/
def percentPlatform : Platform Unit where
  xmlMarshal s := .ok s.Description
  sendAndParseVms _ _ u := (.ok [], u)
  sendAndParseClusters _ _ u := (.ok [], u)
  sendAndParseSnapshot _ _ _ u :=
    (.ok { ID := "s1", Status := "error 100%", VM := { ID := "1", Name := "a" } }, u)
  sendAndParseSnapshots _ _ u := (.ok [], u)
  sendRequest _ _ u := (.ok (), u)

/-- The claim's hypothesis on a list of jobs: polled one after the other,
starting in world `w`, every job reaches a terminal poll. `outs` lists the
terminal poll of each job, in job order, and the last wait ends in `w1`. -/
inductive Resolved {σ : Type} (P : Platform σ) :
    List Snapshot → World σ → List (Except String Snapshot) → World σ → Prop where
  | nil (w : World σ) : Resolved P [] w [] w
  | cons (sn : Snapshot) (rest : List Snapshot) (w : World σ) (k : Nat)
      (outs : List (Except String Snapshot)) (w1 : World σ)
      (hpend : ∀ j, j < k → isTerminal (pollResult P sn w.plat j) = false)
      (hterm : isTerminal (pollResult P sn w.plat k) = true)
      (hrest : Resolved P rest
        ⟨pollState P sn w.plat (k + 1), w.trace ++ waitTrace sn k⟩ outs w1) :
      Resolved P (sn :: rest) w (pollResult P sn w.plat k :: outs) w1

/-- The VM carried by the snapshot of a terminal poll that is Succeeded
(status "ok"), and nothing for a poll that is Failed or a transport error. -/
def succeededVm : Except String Snapshot → Option Vm
  | .error _ => none
  | .ok x => if x.Status = "ok" then some x.VM else none

/-! ## Snapshot creation -/

/-- A platform on which the create request for VM `1` fails and every other
create request succeeds. -/
def failingCreatePlatform : Platform Unit where
  xmlMarshal s := .ok s.Description
  sendAndParseVms _ _ u :=
    (.ok [{ ID := "1", Name := "x" }, { ID := "2", Name := "y" }, { ID := "3", Name := "z" }], u)
  sendAndParseClusters _ _ u := (.ok [], u)
  sendAndParseSnapshot path method _ u :=
    if method == "POST" then
      if path == "vms/1/snapshots" then (.error "500 Internal Server Error", u)
      else (.ok { ID := "new", Status := "pending" }, u)
    else (.ok { ID := "new", Status := "ok" }, u)
  sendAndParseSnapshots _ _ u := (.ok [], u)
  sendRequest _ _ u := (.ok (), u)

/-! ## Run coordinator -/

/-- The dependencies used in the examples: the client is always constructed,
every pattern compiles, `GetVms` is the function of `api.go` applied to the
stored cluster filter and the text of the stored VM pattern, and the purger
reports every VM it is given as processed. -/
def plainDeps {σ : Type} (P : Platform σ) : Deps σ where
  NewClient _ _ _ _ := none
  regexpCompile e := .ok ⟨e⟩
  GetVms a w :=
    OSnap.GetVms P a.ClusterFilter
      (match a.VMFilter with
       | none => ""
       | some re => re.expr) w
  purgeOldSnapshots vms _ w := ((vms.length : Int), w)

/-- A platform with one VM whose snapshot never leaves the status "locked". -/
def lockedPlatform : Platform Unit where
  xmlMarshal s := .ok s.Description
  sendAndParseVms _ _ u := (.ok [{ ID := "1", Name := "a", Cluster := { Id := "c1" } }], u)
  sendAndParseClusters _ _ u := (.ok [{ Id := "c1", Name := "c1" }], u)
  sendAndParseSnapshot _ _ _ u :=
    (.ok { ID := "s1", Status := "locked", VM := { ID := "1", Name := "a" } }, u)
  sendAndParseSnapshots _ _ u := (.ok [], u)
  sendRequest _ _ u := (.ok (), u)

/-! ## Retention purger -/

/-- Modelled from the spec: the snapshots the Retention Purger deletes for one
VM; `purgeOldSnapshots` is called by `run` and defined in none of the source
files. Spec 4.4: of the managed snapshots, oldest first, it "deletes all but
the N most recent". The list is taken in the order given, which is the
ordering the spec falls back on (list order as returned, oldest first). -/
def purgeCandidates (keep : Nat) (managed : List Snapshot) : List Snapshot :=
  managed.take (managed.length - keep)

/-- Modelled from the spec: the deletions of the Retention Purger for one VM.
Spec 4.4: "a failure deleting one snapshot is recorded but does not abort
deletion of the remaining candidates". The result tells whether every
deletion succeeded. -/
def deleteSnapshots {σ : Type} (P : Platform σ) (vm : Vm) :
    List Snapshot → World σ → Bool × World σ
  | [], w => (true, w)
  | s :: rest, w =>
    let r := DeleteSnapshot P vm.ID s.ID w
    let r2 := deleteSnapshots P vm rest r.2
    (r.1.isNone && r2.1, r2.2)

/-- Modelled from the spec: the Retention Purger on one VM. Spec 4.4: it
"lists all Snapshots for the VM, filters to those carrying the managed-marker
suffix" (that is `GetCreatedSnapshots`) and deletes the candidates. A VM whose
listing fails is a VM with an error (spec 7: per-VM operational errors are
recorded against that VM). -/
def purgeVm {σ : Type} (P : Platform σ) (keep : Nat) (vm : Vm) (w : World σ) :
    Bool × World σ :=
  match GetCreatedSnapshots P vm.ID w with
  | (.error _, w1) => (false, w1)
  | (.ok managed, w1) => deleteSnapshots P vm (purgeCandidates keep managed) w1

/-- Modelled from the spec: `purgeOldSnapshots`, which the source files call
and do not define. Spec 4.4: it purges the VMs one at a time and "returns the
count of VMs processed without any deletion error". -/
def purgeOldSnapshots {σ : Type} (P : Platform σ) (keep : Nat) :
    List Vm → World σ → Nat × World σ
  | [], w => (0, w)
  | vm :: rest, w =>
    let r := purgeVm P keep vm w
    let r2 := purgeOldSnapshots P keep rest r.2
    ((if r.1 then 1 else 0) + r2.1, r2.2)

/-- The request that deletes snapshot `s` of VM `vm`. -/
def deleteEvent (vm : Vm) (s : Snapshot) : Event :=
  .request "DELETE" ("vms/" ++ vm.ID ++ "/snapshots/" ++ s.ID) none

/-- The path of the snapshot listing of VM `vm`. -/
def listPath (vm : Vm) : String :=
  "vms/" ++ vm.ID ++ "/snapshots"

/-- The request that lists the snapshots of VM `vm`. -/
def listEvent (vm : Vm) : Event :=
  .request "GET" (listPath vm) none

/-- The managed snapshots of a listing: those whose description ends with the
marker suffix, in list order. -/
def managedOf (snaps : List Snapshot) : List Snapshot :=
  snaps.filter (fun s => HasSuffix s.Description snapshotSuffix)

/-- The platform state after the client has sent, one after the other, the
delete requests for the snapshots of `l` of VM `vm`, from state `s`. -/
def deleteStates {σ : Type} (P : Platform σ) (vm : Vm) : List Snapshot → σ → σ
  | [], s => s
  | x :: rest, s =>
    deleteStates P vm rest
      (P.sendRequest ("vms/" ++ vm.ID ++ "/snapshots/" ++ x.ID) "DELETE" s).2

/-- Whether the client answers every one of those delete requests without an
error. -/
def deletesAccepted {σ : Type} (P : Platform σ) (vm : Vm) : List Snapshot → σ → Bool
  | [], _ => true
  | x :: rest, s =>
    (match (P.sendRequest ("vms/" ++ vm.ID ++ "/snapshots/" ++ x.ID) "DELETE" s).1 with
      | .ok _ => true
      | .error _ => false) &&
    deletesAccepted P vm rest
      (P.sendRequest ("vms/" ++ vm.ID ++ "/snapshots/" ++ x.ID) "DELETE" s).2

/-- The platform carries out the deletes of VM `vm`: a listing does not change
what is listed, every delete request for a snapshot of the VM succeeds, and
after it the listing of the VM has lost the snapshots with that id and no
other. -/
def Honours {σ : Type} (P : Platform σ) (vm : Vm) : Prop :=
  (∀ s l, (P.sendAndParseSnapshots (listPath vm) "GET" s).1 = .ok l →
    (P.sendAndParseSnapshots (listPath vm) "GET"
      (P.sendAndParseSnapshots (listPath vm) "GET" s).2).1 = .ok l) ∧
  (∀ s id, (P.sendRequest ("vms/" ++ vm.ID ++ "/snapshots/" ++ id) "DELETE" s).1 = .ok ()) ∧
  (∀ s id l, (P.sendAndParseSnapshots (listPath vm) "GET" s).1 = .ok l →
    (P.sendAndParseSnapshots (listPath vm) "GET"
      (P.sendRequest ("vms/" ++ vm.ID ++ "/snapshots/" ++ id) "DELETE" s).2).1
      = .ok (l.filter (fun x => x.ID != id)))

/-- A platform that keeps the snapshots of VM `1` as its state, oldest first:
a listing returns them, and a delete request removes the snapshot it names. -/
def storePlatform : Platform (List Snapshot) where
  xmlMarshal s := .ok s.Description
  sendAndParseVms _ _ st := (.ok [{ ID := "1", Name := "a" }], st)
  sendAndParseClusters _ _ st := (.ok [], st)
  sendAndParseSnapshot _ _ _ st := (.ok {}, st)
  sendAndParseSnapshots _ _ st := (.ok st, st)
  sendRequest path _ st :=
    (.ok (), st.filter (fun x => "vms/" ++ "1" ++ "/snapshots/" ++ x.ID != path))

/-- The snapshots of VM `1` in the examples: an untagged snapshot and the
tagged snapshots `s_old1`, `s_old2`, `s1`, oldest first. -/
def storedSnapshots : List Snapshot :=
  [{ ID := "manual", Description := "before upgrade" },
   { ID := "s_old1", Description := "nightly - created by oSnap" },
   { ID := "s_old2", Description := "nightly - created by oSnap" },
   { ID := "s1", Description := "nightly - created by oSnap" }]

/-- A platform that lists three tagged snapshots for every VM and refuses
every delete request. -/
def refusingPlatform : Platform Unit where
  xmlMarshal s := .ok s.Description
  sendAndParseVms _ _ u := (.ok [{ ID := "1", Name := "a" }], u)
  sendAndParseClusters _ _ u := (.ok [], u)
  sendAndParseSnapshot _ _ _ u := (.ok {}, u)
  sendAndParseSnapshots _ _ u :=
    (.ok [{ ID := "s_old1", Description := "nightly - created by oSnap" },
          { ID := "s_old2", Description := "nightly - created by oSnap" },
          { ID := "s1", Description := "nightly - created by oSnap" }], u)
  sendRequest _ _ u := (.error "409 Conflict", u)

/-! # Theorems -/

/-! ## Strings -/

theorem HasSuffix_iff_isSuffix (s x : String) :
    HasSuffix s x = true ↔ x.data <:+ s.data := by
  unfold HasSuffix
  simp only [String.length, Bool.and_eq_true, decide_eq_true_eq, beq_iff_eq, ge_iff_le]
  constructor
  · rintro ⟨_, h⟩
    exact ⟨s.data.take (s.data.length - x.data.length), by
      conv_rhs => rw [← List.take_append_drop (s.data.length - x.data.length) s.data]
      rw [h]⟩
  · intro h
    exact ⟨h.length_le, (List.suffix_iff_eq_drop.mp h).symm⟩

/-- The Go suffix test holds exactly of the strings that end with the suffix. -/
theorem HasSuffix_iff (s x : String) :
    HasSuffix s x = true ↔ ∃ p : String, s = p ++ x := by
  rw [HasSuffix_iff_isSuffix]
  constructor
  · rintro ⟨t, ht⟩
    exact ⟨⟨t⟩, String.ext (by simpa using ht.symm)⟩
  · rintro ⟨p, rfl⟩
    exact ⟨p.data, by simp⟩

theorem HasPrefix_iff (s x : String) :
    HasPrefix s x = true ↔ ∃ t : String, s = x ++ t := by
  unfold HasPrefix
  simp only [String.length, Bool.and_eq_true, decide_eq_true_eq, beq_iff_eq, ge_iff_le]
  constructor
  · rintro ⟨_, h⟩
    refine ⟨⟨s.data.drop x.data.length⟩, String.ext ?_⟩
    simp only [String.data_append]
    conv_lhs => rw [← List.take_append_drop x.data.length s.data]
    rw [h]
  · rintro ⟨t, rfl⟩
    simp

/-! ## Managed snapshots -/

theorem GetCreatedSnapshots_ok {σ : Type} (P : Platform σ) (vmId : String)
    (w : World σ) (res : List Snapshot)
    (h : (P.sendAndParseSnapshots ("vms/" ++ vmId ++ "/snapshots") "GET" w.plat).1 = .ok res) :
    (GetCreatedSnapshots P vmId w).1
        = .ok (res.filter (fun s => HasSuffix s.Description snapshotSuffix)) := by
  unfold GetCreatedSnapshots
  simp only [h]

/-- C2: when the platform returns the snapshot list `res` for a VM,
`GetCreatedSnapshots` returns `res` filtered, in list order, by the test that
the description ends with the marker suffix " - created by oSnap"; a snapshot
is in the result iff it is in `res` and its description ends with the suffix,
so no snapshot lacking the suffix is offered as a deletion candidate. -/
theorem GetCreatedSnapshots_exactly_marked {σ : Type} (P : Platform σ) (vmId : String)
    (w : World σ) (res : List Snapshot)
    (h : (P.sendAndParseSnapshots ("vms/" ++ vmId ++ "/snapshots") "GET" w.plat).1 = .ok res) :
    (GetCreatedSnapshots P vmId w).1
        = .ok (res.filter (fun s => HasSuffix s.Description " - created by oSnap")) ∧
      (res.filter (fun s => HasSuffix s.Description " - created by oSnap")).Sublist res ∧
      (∀ s, s ∈ res.filter (fun s => HasSuffix s.Description " - created by oSnap") ↔
        s ∈ res ∧ ∃ p : String, s.Description = p ++ " - created by oSnap") ∧
      (∀ s, (¬ ∃ p : String, s.Description = p ++ " - created by oSnap") →
        s ∉ res.filter (fun s => HasSuffix s.Description " - created by oSnap")) := by
  refine ⟨?_, List.filter_sublist _, ?_, ?_⟩
  · exact GetCreatedSnapshots_ok P vmId w res h
  · intro s
    rw [List.mem_filter, HasSuffix_iff]
  · intro s hs hmem
    rw [List.mem_filter, HasSuffix_iff] at hmem
    exact hs hmem.2

/-- Example for C2: of a tagged and an untagged snapshot, the tagged one is returned. -/
theorem GetCreatedSnapshots_exactly_marked_witness :
    (listingPlatform.sendAndParseSnapshots ("vms/" ++ "7" ++ "/snapshots") "GET" ()).1
        = .ok [{ ID := "s1", Description := "nightly - created by oSnap" },
               { ID := "s2", Description := "before upgrade" }] ∧
      (GetCreatedSnapshots listingPlatform "7" ⟨(), []⟩).1
        = .ok [{ ID := "s1", Description := "nightly - created by oSnap" }] :=
  ⟨rfl, (GetCreatedSnapshots_exactly_marked listingPlatform "7" ⟨(), []⟩ _ rfl).1.trans
    rfl⟩

/-- C10: for every VM id and description template, `CreateSnapshot` marshals
the snapshot whose description is the template followed by the marker suffix
" - created by oSnap" and whose persist-memory-state flag is false (the other
fields are zero), and posts the marshalled body to `vms/<id>/snapshots`; that
description ends with the marker suffix, and every listed snapshot carrying it
passes the filter of `GetCreatedSnapshots`. -/
theorem CreateSnapshot_request_is_marked {σ : Type} (P : Platform σ) (vmId desc : String)
    (w : World σ) :
    (∀ b, P.xmlMarshal { ID := "", Description := desc ++ " - created by oSnap", Status := "",
                         PersistMemoryState := false, VM := {} } = .ok b →
      (CreateSnapshot P vmId desc w).2.trace
          = w.trace ++ [.request "POST" ("vms/" ++ vmId ++ "/snapshots") (some b)] ∧
        (CreateSnapshot P vmId desc w).1
          = ((P.sendAndParseSnapshot ("vms/" ++ vmId ++ "/snapshots") "POST" (some b)
              w.plat).1.mapError GoError.lib)) ∧
      (∀ e, P.xmlMarshal { ID := "", Description := desc ++ " - created by oSnap", Status := "",
                           PersistMemoryState := false, VM := {} } = .error e →
        CreateSnapshot P vmId desc w = (.error (.lib e), w)) ∧
      HasSuffix (desc ++ " - created by oSnap") snapshotSuffix = true ∧
      (∀ (τ : Type) (Q : Platform τ) (vmId2 : String) (w2 : World τ) (res : List Snapshot)
          (s : Snapshot),
        (Q.sendAndParseSnapshots ("vms/" ++ vmId2 ++ "/snapshots") "GET" w2.plat).1 = .ok res →
        s ∈ res → s.Description = desc ++ " - created by oSnap" →
        ∃ snaps, (GetCreatedSnapshots Q vmId2 w2).1 = .ok snaps ∧ s ∈ snaps) := by
  refine ⟨?_, ?_, ?_, ?_⟩
  · intro b hb
    have hb2 : P.xmlMarshal (createRequest desc) = .ok b := hb
    unfold CreateSnapshot
    simp only [hb2]
    constructor
    · cases hr : (P.sendAndParseSnapshot ("vms/" ++ vmId ++ "/snapshots") "POST" (some b)
        w.plat).1 <;> simp [World.step]
    · cases hr : (P.sendAndParseSnapshot ("vms/" ++ vmId ++ "/snapshots") "POST" (some b)
        w.plat).1 <;> simp [Except.mapError]
  · intro e he
    have he2 : P.xmlMarshal (createRequest desc) = .error e := he
    unfold CreateSnapshot
    simp only [he2]
  · exact (HasSuffix_iff _ _).mpr ⟨desc, rfl⟩
  · intro τ Q vmId2 w2 res s hres hs hd
    refine ⟨_, GetCreatedSnapshots_ok Q vmId2 w2 res hres, ?_⟩
    rw [List.mem_filter]
    exact ⟨hs, by rw [hd]; exact (HasSuffix_iff _ _).mpr ⟨desc, rfl⟩⟩

/-! ## Cluster resolution and VM selection -/

theorem length_beq_zero_iff (s : String) : (s.length == 0) = true ↔ s = "" := by
  rw [beq_iff_eq]
  constructor
  · intro h
    apply String.ext
    exact List.length_eq_zero.mp h
  · rintro rfl
    rfl

theorem find_first_match {α : Type} (p : α → Bool) (pre : List α) (c : α) (post : List α)
    (hpre : ∀ d ∈ pre, p d = false) (hc : p c = true) :
    (pre ++ c :: post).find? p = some c := by
  induction pre with
  | nil => simp [hc]
  | cons d pre ih =>
    have hd : p d = false := hpre d (List.mem_cons_self _ _)
    simp only [List.cons_append, List.find?_cons, hd]
    exact ih (fun x hx => hpre x (List.mem_cons_of_mem _ hx))

/-- C9: `getClusterId` returns the empty id, without error and without any
request, when the name is empty. Otherwise it sends one cluster search; a
failed request is returned as is; when the request succeeds the result is the
id of the first returned cluster whose name equals the given name, and the
result is the "Unknown cluster" error iff the request succeeded and no
returned cluster has that name. `GetVms` then fails with that error and has
sent the cluster search only: the VM inventory is not requested. -/
theorem getClusterId_resolves {σ : Type} (P : Platform σ) (name : String) (w : World σ) :
    (name = "" → getClusterId P name w = (.ok "", w)) ∧
    (name ≠ "" →
      (getClusterId P name w).2
          = ⟨(P.sendAndParseClusters ("clusters?search=" ++ name) "GET" w.plat).2,
             w.trace ++ [.request "GET" ("clusters?search=" ++ name) none]⟩ ∧
      (∀ e, (P.sendAndParseClusters ("clusters?search=" ++ name) "GET" w.plat).1 = .error e →
        (getClusterId P name w).1 = .error (.lib e)) ∧
      (∀ pre c post,
        (P.sendAndParseClusters ("clusters?search=" ++ name) "GET" w.plat).1
            = .ok (pre ++ c :: post) →
        (∀ d ∈ pre, d.Name ≠ name) → c.Name = name →
        (getClusterId P name w).1 = .ok c.Id) ∧
      ((getClusterId P name w).1 = .error (.errorf ("Unknown cluster " ++ name)) ↔
        ∃ clusters,
          (P.sendAndParseClusters ("clusters?search=" ++ name) "GET" w.plat).1 = .ok clusters ∧
          ∀ d ∈ clusters, d.Name ≠ name)) ∧
    (∀ vmFilter,
      (getClusterId P name w).1 = .error (.errorf ("Unknown cluster " ++ name)) →
      GetVms P name vmFilter w
        = (.error (.errorf ("Unknown cluster " ++ name)),
           ⟨(P.sendAndParseClusters ("clusters?search=" ++ name) "GET" w.plat).2,
            w.trace ++ [.request "GET" ("clusters?search=" ++ name) none]⟩)) := by
  have hne : ∀ h : name ≠ "", (name.length == 0) = false := fun h => by
    rw [← Bool.not_eq_true, length_beq_zero_iff]; exact h
  have hw : name ≠ "" → (getClusterId P name w).2
      = ⟨(P.sendAndParseClusters ("clusters?search=" ++ name) "GET" w.plat).2,
         w.trace ++ [.request "GET" ("clusters?search=" ++ name) none]⟩ := by
    intro h
    unfold getClusterId
    simp only [hne h, Bool.false_eq_true, if_false, World.step]
    split
    · rfl
    · split <;> rfl
  refine ⟨?_, fun h => ⟨hw h, ?_, ?_, ?_⟩, ?_⟩
  · rintro rfl
    rfl
  · intro e he
    unfold getClusterId
    simp only [hne h, Bool.false_eq_true, if_false, he]
  · intro pre c post hok hpre hc
    unfold getClusterId
    simp only [hne h, Bool.false_eq_true, if_false, hok]
    rw [find_first_match (fun cluster => cluster.Name == name) pre c post
      (fun d hd => by simpa using hpre d hd) (by simpa using hc)]
  · unfold getClusterId
    simp only [hne h, Bool.false_eq_true, if_false]
    cases hr : (P.sendAndParseClusters ("clusters?search=" ++ name) "GET" w.plat).1 with
    | error e => simp
    | ok clusters =>
      cases hf : clusters.find? (fun cluster => cluster.Name == name) with
      | none =>
        simp only [hf, true_iff]
        refine ⟨clusters, rfl, ?_⟩
        intro d hd
        have := List.find?_eq_none.mp hf d hd
        simpa using this
      | some c =>
        simp only [hf, false_iff, reduceCtorEq]
        rintro ⟨cl, hcl, hall⟩
        have hcl2 : clusters = cl := by injection hcl
        subst hcl2
        have hmem := List.mem_of_find?_eq_some hf
        have hp := List.find?_some hf
        exact hall c hmem (by simpa using hp)
  · intro vmFilter herr
    by_cases h : name = ""
    · subst h
      exact absurd herr (by simp [getClusterId])
    · have h2 := hw h
      unfold GetVms
      cases hg : getClusterId P name w with
      | mk r w1 =>
        rw [hg] at herr h2
        simp only at herr h2
        subst herr
        subst h2
        rfl

/-- Example for C9: the cluster `test` resolves to `c2`; for the unknown cluster
`staging`, `GetVms` fails after the cluster search alone. -/
theorem getClusterId_resolves_witness :
    (getClusterId inventoryPlatform "test" ⟨(), []⟩).1 = .ok "c2" ∧
    GetVms inventoryPlatform "staging" "" ⟨(), []⟩
      = (.error (.errorf "Unknown cluster staging"),
         ⟨(), [.request "GET" "clusters?search=staging" none]⟩) :=
  ⟨((getClusterId_resolves inventoryPlatform "test" ⟨(), []⟩).2.1 (by decide)).2.2.1
      [{ Id := "c1", Name := "prod" }] { Id := "c2", Name := "test" } [] rfl (by decide) rfl,
   (getClusterId_resolves inventoryPlatform "staging" ⟨(), []⟩).2.2 "" rfl⟩

/-- What `GetVms` computes: when the cluster filter resolves to `clusterId`
and the platform returns the inventory `vms`, the result is `vms` filtered, in
order, by (cluster id equal or cluster filter empty) and (name EQUAL to the VM
filter or VM filter empty). -/
theorem GetVms_selection {σ : Type} (P : Platform σ) (clusterFilter vmFilter : String)
    (w w1 : World σ) (clusterId : String) (vms : List Vm)
    (hc : getClusterId P clusterFilter w = (.ok clusterId, w1))
    (hv : (P.sendAndParseVms "vms" "GET" w1.plat).1 = .ok vms) :
    (GetVms P clusterFilter vmFilter w).1
      = .ok (vms.filter (fun v =>
          (v.Cluster.Id == clusterId || clusterFilter.length == 0) &&
          (v.Name == vmFilter || vmFilter.length == 0))) := by
  unfold GetVms
  simp only [hc, hv]

/-- C1 (the code departs from the claim): with no cluster filter and the
include pattern `web`, `GetVms` selects from the inventory `web1, web, db` the
VM named `web` only. The VM `web1`, whose name the regular expression `web`
matches, is dropped, because the name is compared for equality with the
pattern; and `GetVms` has no parameter for an exclude pattern. -/
theorem GetVms_include_by_equality :
    (GetVms inventoryPlatform "" "web" ⟨(), []⟩).1
      = .ok [{ ID := "2", Name := "web", Cluster := { Id := "c1" } }] := by
  rfl

/-! ## Completion monitor -/

theorem pollState_shift {σ : Type} (P : Platform σ) (sn : Snapshot) (s : σ) (n : Nat) :
    pollState P sn s (n + 1)
      = pollState P sn (P.sendAndParseSnapshot (pollPath sn) "GET" none s).2 n := by
  induction n with
  | zero => rfl
  | succ n ih =>
    show (P.sendAndParseSnapshot (pollPath sn) "GET" none (pollState P sn s (n + 1))).2 = _
    rw [ih]
    rfl

theorem pollResult_shift {σ : Type} (P : Platform σ) (sn : Snapshot) (s : σ) (n : Nat) :
    pollResult P sn s (n + 1)
      = pollResult P sn (P.sendAndParseSnapshot (pollPath sn) "GET" none s).2 n := by
  unfold pollResult
  rw [pollState_shift]

/-- One iteration of the loop of `waitForCompletion`, by the poll result. -/
theorem waitLoop_succ {σ : Type} (P : Platform σ) (sn : Snapshot) (fuel : Nat) (w : World σ) :
    waitLoop P sn (fuel + 1) w
      = if isTerminal (pollResult P sn w.plat 0) then
          some (.returned (terminalOutcome (pollResult P sn w.plat 0)),
            ⟨pollState P sn w.plat 1, w.trace ++ [pollEvent sn]⟩)
        else
          waitLoop P sn fuel
            ⟨pollState P sn w.plat 1, w.trace ++ [pollEvent sn] ++ [.sleep 30]⟩ := by
  have hpath : "vms/" ++ sn.VM.ID ++ "/snapshots/" ++ sn.ID = pollPath sn := rfl
  rw [waitLoop]
  unfold GetSnapshot
  simp only [hpath, World.step, pollResult, pollState, pollEvent]
  cases hr : (P.sendAndParseSnapshot (pollPath sn) "GET" none w.plat).1 with
  | error e => simp [isTerminal, terminalOutcome]
  | ok x =>
    simp only [isTerminal, terminalOutcome]
    have h1 : HasPrefix "ok" "fail" = false := by decide
    have h2 : HasPrefix "ok" "error" = false := by decide
    by_cases hf : HasPrefix x.Status "fail" = true ∨ HasPrefix x.Status "error" = true
    · have hok : x.Status ≠ "ok" := by
        intro h
        rw [h, h1, h2] at hf
        simp at hf
      simp [hf, hok]
    · by_cases hok : x.Status = "ok"
      · simp [hok, h1, h2]
      · simp [hf, hok]

/-- The loop of `waitForCompletion` returns at the first terminal poll. -/
theorem waitLoop_resolves {σ : Type} (P : Platform σ) (sn : Snapshot) :
    ∀ (k : Nat) (w : World σ) (fuel : Nat),
      (∀ j, j < k → isTerminal (pollResult P sn w.plat j) = false) →
      isTerminal (pollResult P sn w.plat k) = true →
      k < fuel →
      waitLoop P sn fuel w
        = some (.returned (terminalOutcome (pollResult P sn w.plat k)),
            ⟨pollState P sn w.plat (k + 1), w.trace ++ waitTrace sn k⟩) := by
  intro k
  induction k with
  | zero =>
    intro w fuel _ hk hfuel
    obtain ⟨f, rfl⟩ : ∃ f, fuel = f + 1 := ⟨fuel - 1, by omega⟩
    rw [waitLoop_succ, if_pos hk]
    rfl
  | succ k ih =>
    intro w fuel hlt hk hfuel
    obtain ⟨f, rfl⟩ : ∃ f, fuel = f + 1 := ⟨fuel - 1, by omega⟩
    have h0 : isTerminal (pollResult P sn w.plat 0) = false := hlt 0 (by omega)
    rw [waitLoop_succ, h0]
    simp only [Bool.false_eq_true, if_false]
    rw [ih ⟨pollState P sn w.plat 1, w.trace ++ [pollEvent sn] ++ [Event.sleep 30]⟩ f
      (fun j hj => by
        have := hlt (j + 1) (by omega)
        rw [pollResult_shift] at this
        exact this)
      (by rw [pollResult_shift] at hk; exact hk)
      (by omega)]
    have e1 : pollState P sn w.plat 1
        = (P.sendAndParseSnapshot (pollPath sn) "GET" none w.plat).2 := rfl
    rw [pollResult_shift P sn w.plat k, pollState_shift P sn w.plat (k + 1), e1]
    simp only [waitTrace, List.append_assoc, List.singleton_append]
    rfl

theorem waitTrace_counts (sn : Snapshot) (k : Nat) :
    ((waitTrace sn k).filter (fun e => e == pollEvent sn)).length = k + 1 ∧
    ((waitTrace sn k).filter (fun e => e == Event.sleep 30)).length = k ∧
    (waitTrace sn k).length = 2 * k + 1 := by
  induction k with
  | zero => simp [waitTrace, pollEvent]
  | succ k ih =>
    obtain ⟨h1, h2, h3⟩ := ih
    refine ⟨?_, ?_, ?_⟩
    · simp only [waitTrace, List.filter_cons, beq_self_eq_true, if_true, List.length_cons]
      have : (Event.sleep 30 == pollEvent sn) = false := by simp [pollEvent]
      simp only [this, h1, Bool.false_eq_true, if_false]
    · simp only [waitTrace, List.filter_cons, beq_self_eq_true, if_true, List.length_cons]
      have : (pollEvent sn == Event.sleep 30) = false := by simp [pollEvent]
      simp only [this, h2, Bool.false_eq_true, if_false, List.length_cons]
    · simp only [waitTrace, List.length_cons, h3]
      omega

/-- C4: when the polls of a job before poll number `k` (from 0) are not
terminal and poll number `k` is, where a poll is terminal iff it is a transport
error or its status is "ok" or begins with "fail" or "error", then with any
fuel above `k` `waitForCompletion` returns after exactly `k + 1` polls and `k`
sleeps of 30 seconds, in alternation, and nothing after the last poll. It
returns the polled snapshot iff that poll has status "ok", and a transport
error is returned as it came. -/
theorem waitForCompletion_first_terminal {σ : Type} (P : Platform σ) (sn : Snapshot)
    (w : World σ) (k fuel : Nat)
    (hpend : ∀ j, j < k → isTerminal (pollResult P sn w.plat j) = false)
    (hterm : isTerminal (pollResult P sn w.plat k) = true)
    (hfuel : k < fuel) :
    ∃ r, waitForCompletion P fuel (some sn) w
          = some (.returned r, ⟨pollState P sn w.plat (k + 1), w.trace ++ waitTrace sn k⟩) ∧
      ((waitTrace sn k).filter (fun e => e == pollEvent sn)).length = k + 1 ∧
      ((waitTrace sn k).filter (fun e => e == Event.sleep 30)).length = k ∧
      (waitTrace sn k).length = 2 * k + 1 ∧
      (∀ x, r = .ok x ↔ (pollResult P sn w.plat k = .ok x ∧ x.Status = "ok")) ∧
      (∀ e, pollResult P sn w.plat k = .error e → r = .error (.lib e)) := by
  refine ⟨terminalOutcome (pollResult P sn w.plat k), ?_, (waitTrace_counts sn k).1,
    (waitTrace_counts sn k).2.1, (waitTrace_counts sn k).2.2, ?_, ?_⟩
  · exact waitLoop_resolves P sn k w fuel hpend hterm hfuel
  · intro x
    cases hr : pollResult P sn w.plat k with
    | error e => simp [terminalOutcome]
    | ok y =>
      by_cases hy : y.Status = "ok"
      · simp only [terminalOutcome, hy, if_true, Except.ok.injEq]
        constructor
        · rintro rfl
          exact ⟨rfl, hy⟩
        · rintro ⟨h, _⟩
          exact h
      · simp only [terminalOutcome, hy, if_false, reduceCtorEq, Except.ok.injEq, false_iff]
        rintro ⟨rfl, h⟩
        exact hy h
  · intro e he
    rw [he]
    rfl

/-- Example for C4: the polls "pending", "pending", "ok" resolve to Succeeded
after three polls and two sleeps. -/
theorem waitForCompletion_first_terminal_witness :
    (∀ j, j < 2 → isTerminal (pollResult pollingPlatform jobS1 0 j) = false) ∧
    isTerminal (pollResult pollingPlatform jobS1 0 2) = true ∧
    waitForCompletion pollingPlatform 3 (some jobS1) ⟨0, []⟩
      = some (.returned (.ok { ID := "s1", Status := "ok", VM := { ID := "1", Name := "a" } }),
          ⟨3, [.request "GET" "vms/1/snapshots/s1" none, .sleep 30,
               .request "GET" "vms/1/snapshots/s1" none, .sleep 30,
               .request "GET" "vms/1/snapshots/s1" none]⟩) := by
  have h1 : ∀ j, j < 2 → isTerminal (pollResult pollingPlatform jobS1 0 j) = false := by
    intro j hj
    interval_cases j <;> rfl
  have h2 : isTerminal (pollResult pollingPlatform jobS1 0 2) = true := rfl
  refine ⟨h1, h2, ?_⟩
  obtain ⟨r, hr, _, _, _, hiff, _⟩ :=
    waitForCompletion_first_terminal pollingPlatform jobS1 ⟨0, []⟩ 2 3 h1 h2 (by decide)
  have hrv : r = .ok { ID := "s1", Status := "ok", VM := { ID := "1", Name := "a" } } :=
    (hiff _).mpr ⟨rfl, rfl⟩
  rw [hr, hrv]
  rfl

/-- A status without a percent sign is its own error message. -/
theorem doPrintf_of_no_percent (cs : List Char) (h : '%' ∉ cs) :
    ∀ fuel, cs.length < fuel → doPrintf fuel cs = cs := by
  induction cs with
  | nil =>
    intro fuel hf
    obtain ⟨f, rfl⟩ : ∃ f, fuel = f + 1 := ⟨fuel - 1, by omega⟩
    rfl
  | cons c cs ih =>
    intro fuel hf
    have hf2 : cs.length + 1 < fuel := hf
    obtain ⟨f, rfl⟩ : ∃ f, fuel = f + 1 := ⟨fuel - 1, by omega⟩
    have hc : (c == '%') = false := by
      rw [beq_eq_false_iff_ne]
      intro hc
      exact h (hc ▸ List.mem_cons_self _ _)
    simp only [doPrintf, hc, Bool.false_eq_true, if_false]
    rw [ih (fun hm => h (List.mem_cons_of_mem _ hm)) f (by omega)]

theorem Errorf_of_no_percent (status : String) (h : '%' ∉ status.data) :
    (Errorf status).Error = status := by
  unfold Errorf GoError.Error Sprintf
  simp only
  apply String.ext
  exact doPrintf_of_no_percent status.data h _ (Nat.lt_succ_self _)

/-- C5 (the code departs from the claim): the polled status "error 100%"
begins with "error", and `waitForCompletion` fails the job with the error
message "error 100%!(NOVERB)", which is not the raw status: the status is
passed to `fmt.Errorf` as the format string. -/
theorem waitForCompletion_status_is_format :
    HasPrefix "error 100%" "error" = true ∧
    waitForCompletion percentPlatform 1 (some jobS1) ⟨(), []⟩
      = some (.returned (.error (.errorf "error 100%!(NOVERB)")),
          ⟨(), [.request "GET" "vms/1/snapshots/s1" none]⟩) ∧
    (GoError.errorf "error 100%!(NOVERB)").Error ≠ "error 100%" := by
  refine ⟨by decide, rfl, by decide⟩

theorem Resolved_length {σ : Type} (P : Platform σ) (jobs : List Snapshot) (w w1 : World σ)
    (outs : List (Except String Snapshot)) (h : Resolved P jobs w outs w1) :
    outs.length = jobs.length ∧ ∀ o ∈ outs, isTerminal o = true := by
  induction h with
  | nil w => simp
  | cons sn rest w k outs w1 hpend hterm hrest ih =>
    refine ⟨by simp [ih.1], ?_⟩
    intro o ho
    rcases List.mem_cons.mp ho with rfl | ho
    · exact hterm
    · exact ih.2 o ho

theorem monitorLoop_resolved {σ : Type} (P : Platform σ) (jobs : List Snapshot)
    (w w1 : World σ) (outs : List (Except String Snapshot)) (h : Resolved P jobs w outs w1) :
    ∃ fuel0, ∀ fuel, fuel0 ≤ fuel → ∀ complete,
      monitorLoop P fuel (jobs.map some) complete w
        = some (.returned (complete ++ outs.filterMap succeededVm), w1) := by
  induction h with
  | nil w =>
    exact ⟨0, fun fuel _ complete => by simp [monitorLoop]⟩
  | cons sn rest w k outs w1 hpend hterm hrest ih =>
    obtain ⟨f0, hf0⟩ := ih
    refine ⟨max (k + 1) f0, fun fuel hfuel complete => ?_⟩
    have hk : k < fuel := by omega
    have hwait := waitLoop_resolves P sn k w fuel hpend hterm hk
    simp only [List.map_cons, monitorLoop, waitForCompletion, hwait]
    cases hr : pollResult P sn w.plat k with
    | error e =>
      simp only [terminalOutcome, List.filterMap_cons, succeededVm]
      exact hf0 fuel (by omega) complete
    | ok x =>
      by_cases hx : x.Status = "ok"
      · simp only [terminalOutcome, hx, if_true, List.filterMap_cons, succeededVm]
        rw [hf0 fuel (by omega) (complete ++ [x.VM])]
        simp
      · simp only [terminalOutcome, hx, if_false, List.filterMap_cons, succeededVm]
        exact hf0 fuel (by omega) complete

theorem filterMap_succeededVm_echo :
    ∀ (jobs : List Snapshot) (outs : List (Except String Snapshot)),
      (∀ p ∈ jobs.zip outs, ∀ x, p.2 = .ok x → x.VM = p.1.VM) →
      outs.length = jobs.length →
      outs.filterMap succeededVm
        = ((jobs.zip outs).filter (fun p => (succeededVm p.2).isSome)).map (fun p => p.1.VM)
  | [], [], _, _ => rfl
  | [], _ :: _, _, hl => by simp at hl
  | _ :: _, [], _, hl => by simp at hl
  | sn :: jobs, o :: outs, hecho, hl => by
    have ih := filterMap_succeededVm_echo jobs outs
      (fun p hp x hx => hecho p (by simp [hp]) x hx) (by simpa using hl)
    cases o with
    | error e => simpa [succeededVm] using ih
    | ok x =>
      have hvm : x.VM = sn.VM := hecho (sn, .ok x) (by simp) x rfl
      by_cases hx : x.Status = "ok"
      · simp [succeededVm, hx, ih, hvm]
      · simpa [succeededVm, hx] using ih

theorem mem_zip_eq_of_VM_eq (jobs : List Snapshot) (outs : List (Except String Snapshot))
    (hlen : outs.length = jobs.length) (hnodup : (jobs.map (fun sn => sn.VM)).Nodup)
    (p q : Snapshot × Except String Snapshot) (hp : p ∈ jobs.zip outs) (hq : q ∈ jobs.zip outs)
    (hvm : q.1.VM = p.1.VM) : q = p := by
  have hmap : (jobs.zip outs).map (fun r => r.1.VM) = jobs.map (fun sn => sn.VM) := by
    have h1 := List.map_fst_zip jobs outs (by omega)
    calc (jobs.zip outs).map (fun r => r.1.VM)
        = ((jobs.zip outs).map Prod.fst).map (fun sn => sn.VM) := by
          rw [List.map_map]; rfl
      _ = jobs.map (fun sn => sn.VM) := by rw [h1]
  have hnd : ((jobs.zip outs).map (fun r => r.1.VM)).Nodup := by rw [hmap]; exact hnodup
  exact List.inj_on_of_nodup_map hnd hq hp hvm

/-- C6 (counterexample to the claim as stated): the jobs are snapshot `s2` of
VM `2`, which has failed, and snapshot `s1` of VM `1`, whose poll answers `ok`
with a snapshot that carries VM `2`. Both jobs reach a terminal poll, and
`monitorSnapshotCreation` returns the VM `2` alone: the owning VM of the job
that resolved to Failed is in the result and the owning VM of the job that
resolved to Succeeded is not. The VM appended is the one of the polled
snapshot, not the one of the job. -/
theorem monitorSnapshotCreation_returns_polled_vm :
    Resolved misreportingPlatform [jobS2, jobS1] ⟨(), []⟩
      [.ok { ID := "s2", Status := "failed", VM := { ID := "2", Name := "b" } },
       .ok { ID := "s1", Status := "ok", VM := { ID := "2", Name := "b" } }]
      ⟨(), [.request "GET" "vms/2/snapshots/s2" none,
            .request "GET" "vms/1/snapshots/s1" none]⟩ ∧
    monitorSnapshotCreation misreportingPlatform 1 [some jobS2, some jobS1] ⟨(), []⟩
      = some (.returned [jobS2.VM],
          ⟨(), [.request "GET" "vms/2/snapshots/s2" none,
                .request "GET" "vms/1/snapshots/s1" none]⟩) ∧
    jobS1.VM ∉ [jobS2.VM] := by
  refine ⟨?_, rfl, by decide⟩
  exact Resolved.cons jobS2 [jobS1] ⟨(), []⟩ 0 _ _
    (fun j hj => absurd hj (Nat.not_lt_zero j)) rfl
    (Resolved.cons jobS1 [] ⟨(), [.request "GET" "vms/2/snapshots/s2" none]⟩ 0 _ _
      (fun j hj => absurd hj (Nat.not_lt_zero j)) rfl (Resolved.nil _))

/-- C6 (amended): when the `N` jobs of a list, polled one after the other, all
reach a terminal poll, then with enough fuel `monitorSnapshotCreation` returns
(it resolves all `N` jobs: there are `N` terminal polls, one per job, and a
job that fails or hits a transport error does not stop the later ones) and the
result lists, in job order, the VM carried by the polled snapshot of each job
that resolved to Succeeded, and nothing for any other job; so it has at most
`N` elements. When every poll reports the owning VM of its job, the result is
the list of the owning VMs of the Succeeded jobs, in job order; and when the
owning VMs of the jobs are distinct as well, the owning VM of a job that did
not resolve to Succeeded is not in the result. -/
theorem monitorSnapshotCreation_resolves_all {σ : Type} (P : Platform σ)
    (jobs : List Snapshot) (w w1 : World σ) (outs : List (Except String Snapshot))
    (h : Resolved P jobs w outs w1) :
    (∃ fuel0, ∀ fuel, fuel0 ≤ fuel →
      monitorSnapshotCreation P fuel (jobs.map some) w
        = some (.returned (outs.filterMap succeededVm), w1)) ∧
    outs.length = jobs.length ∧
    (∀ o ∈ outs, isTerminal o = true) ∧
    (outs.filterMap succeededVm).length ≤ jobs.length ∧
    ((∀ p ∈ jobs.zip outs, ∀ x, p.2 = .ok x → x.VM = p.1.VM) →
      outs.filterMap succeededVm
          = ((jobs.zip outs).filter (fun p => (succeededVm p.2).isSome)).map
              (fun p => p.1.VM) ∧
        ((jobs.map (fun sn => sn.VM)).Nodup →
          ∀ p ∈ jobs.zip outs, succeededVm p.2 = none →
            p.1.VM ∉ outs.filterMap succeededVm)) := by
  obtain ⟨hlen, hterm⟩ := Resolved_length P jobs w w1 outs h
  refine ⟨?_, hlen, hterm, ?_, ?_⟩
  · obtain ⟨f0, hf0⟩ := monitorLoop_resolved P jobs w w1 outs h
    exact ⟨f0, fun fuel hfuel => by
      have := hf0 fuel hfuel []
      simpa [monitorSnapshotCreation] using this⟩
  · rw [← hlen]
    exact List.length_filterMap_le _ _
  · intro hecho
    have heq := filterMap_succeededVm_echo jobs outs hecho hlen
    refine ⟨heq, ?_⟩
    intro hnodup p hp hfail hmem
    rw [heq, List.mem_map] at hmem
    obtain ⟨q, hq, hvm⟩ := hmem
    rw [List.mem_filter] at hq
    have hqp : q = p := mem_zip_eq_of_VM_eq jobs outs hlen hnodup p q hp hq.1 hvm
    rw [hqp, hfail] at hq
    exact absurd hq.2 (by simp)

/-- Example for C6: of a job that fails and a job that succeeds at its second
poll, both are resolved and the VM of the second is returned; every poll
reports the owning VM of its job, and the VM of the failed job is not in the
result. -/
theorem monitorSnapshotCreation_resolves_all_witness :
    Resolved pollingPlatform [jobS2, jobS1] ⟨0, []⟩
      [.ok { ID := "s2", Status := "failed", VM := { ID := "2", Name := "b" } },
       .ok { ID := "s1", Status := "ok", VM := { ID := "1", Name := "a" } }]
      ⟨3, [.request "GET" "vms/2/snapshots/s2" none,
           .request "GET" "vms/1/snapshots/s1" none, .sleep 30,
           .request "GET" "vms/1/snapshots/s1" none]⟩ ∧
    (∃ fuel0, ∀ fuel, fuel0 ≤ fuel →
      monitorSnapshotCreation pollingPlatform fuel [some jobS2, some jobS1] ⟨0, []⟩
        = some (.returned [{ ID := "1", Name := "a" }],
            ⟨3, [.request "GET" "vms/2/snapshots/s2" none,
                 .request "GET" "vms/1/snapshots/s1" none, .sleep 30,
                 .request "GET" "vms/1/snapshots/s1" none]⟩)) ∧
    (∀ p ∈ [jobS2, jobS1].zip
        [(.ok { ID := "s2", Status := "failed", VM := { ID := "2", Name := "b" } } :
            Except String Snapshot),
         .ok { ID := "s1", Status := "ok", VM := { ID := "1", Name := "a" } }],
      ∀ x, p.2 = .ok x → x.VM = p.1.VM) ∧
    jobS2.VM ∉ [({ ID := "1", Name := "a" } : Vm)] := by
  have hres : Resolved pollingPlatform [jobS2, jobS1] ⟨0, []⟩
      [.ok { ID := "s2", Status := "failed", VM := { ID := "2", Name := "b" } },
       .ok { ID := "s1", Status := "ok", VM := { ID := "1", Name := "a" } }]
      ⟨3, [.request "GET" "vms/2/snapshots/s2" none,
           .request "GET" "vms/1/snapshots/s1" none, .sleep 30,
           .request "GET" "vms/1/snapshots/s1" none]⟩ :=
    Resolved.cons jobS2 [jobS1] ⟨0, []⟩ 0 _ _ (fun j hj => absurd hj (Nat.not_lt_zero j)) rfl
      (Resolved.cons jobS1 [] ⟨1, [.request "GET" "vms/2/snapshots/s2" none]⟩ 1 _ _
        (fun j hj => by interval_cases j; rfl) rfl (Resolved.nil _))
  have hall := monitorSnapshotCreation_resolves_all pollingPlatform [jobS2, jobS1] ⟨0, []⟩ _ _
    hres
  have hecho : ∀ p ∈ [jobS2, jobS1].zip
      [(.ok { ID := "s2", Status := "failed", VM := { ID := "2", Name := "b" } } :
          Except String Snapshot),
       .ok { ID := "s1", Status := "ok", VM := { ID := "1", Name := "a" } }],
      ∀ x, p.2 = .ok x → x.VM = p.1.VM := by
    intro p hp x hx
    simp only [List.zip_cons_cons, List.zip_nil_right, List.mem_cons, List.mem_singleton,
      List.not_mem_nil, or_false] at hp
    rcases hp with rfl | rfl
    · injection hx with hx
      subst hx
      rfl
    · injection hx with hx
      subst hx
      rfl
  exact ⟨hres, hall.1, hecho,
    (hall.2.2.2.2 hecho).2 (by decide)
      (jobS2, .ok { ID := "s2", Status := "failed", VM := { ID := "2", Name := "b" } })
      (List.mem_cons_self _ _) rfl⟩

/-! ## Snapshot creation -/

/-- A failed create request makes `createSnapshots` panic at once, whatever
VMs follow: the loop body has no `continue` after the failure is logged. -/
theorem createSnapshots_panics_on_failed_create {σ : Type} (P : Platform σ) (fuel : Nat)
    (desc : String) (vm : Vm) (rest : List Vm) (w : World σ) (e : GoError)
    (h : (CreateSnapshot P vm.ID desc w).1 = .error e) :
    createSnapshots P fuel desc (vm :: rest) w
      = some (.panicked nilDereference, (CreateSnapshot P vm.ID desc w).2) := by
  unfold createSnapshots createLoop
  simp only [h]

/-- C3 (the code departs from the claim): for the selected VMs `x, y, z`, on a
platform where the create request fails for `x` only, `createSnapshots` panics
with a nil pointer dereference right after the failed request for `x`. The
trace holds that one request: no snapshot is created for `y` or `z`, nothing
is handed to the monitor, and the run crashes. -/
theorem createSnapshots_failed_create_crashes :
    createSnapshots failingCreatePlatform 5 "nightly"
        [{ ID := "1", Name := "x" }, { ID := "2", Name := "y" }, { ID := "3", Name := "z" }]
        ⟨(), []⟩
      = some (.panicked "runtime error: invalid memory address or nil pointer dereference",
          ⟨(), [.request "POST" "vms/1/snapshots" (some "nightly - created by oSnap")]⟩) := by
  rfl

/-! ## Run coordinator -/

theorem waitLoop_locked (sn : Snapshot) :
    ∀ (fuel : Nat) (w : World Unit), waitLoop lockedPlatform sn fuel w = none := by
  intro fuel
  induction fuel with
  | zero => intro w; rfl
  | succ f ih =>
    intro w
    rw [waitLoop_succ]
    have h0 : isTerminal (pollResult lockedPlatform sn w.plat 0) = false := rfl
    rw [h0]
    exact ih _

/-- In normal mode a run whose snapshot creation does not return does not
return either. -/
theorem run_of_create_none {σ : Type} (D : Deps σ) (P : Platform σ) (fl : Flags) (fuel : Nat)
    (w w1 : World σ) (a : Api) (vms : List Vm)
    (hapi : getAPI D fl = .ok a) (hsel : D.GetVms a w = (.ok vms, w1))
    (hmode : fl.purgeOnly = false)
    (hc : createSnapshots P fuel fl.desc vms w1 = none) :
    run D P fl fuel w = none := by
  unfold run
  simp only [hapi, hsel, hmode, hc, Bool.not_false, if_true]

theorem createSnapshots_locked (fuel : Nat) :
    createSnapshots lockedPlatform fuel "oSnap generated snapshot"
      [{ ID := "1", Name := "a", Cluster := { Id := "c1" } }]
      ⟨(), [.request "GET" "vms" none]⟩ = none := by
  show monitorLoop lockedPlatform fuel
    [some { ID := "s1", Status := "locked", VM := { ID := "1", Name := "a" } }] []
    ⟨(), [.request "GET" "vms" none,
          .request "POST" "vms/1/snapshots" (some "oSnap generated snapshot - created by oSnap")]⟩
    = none
  simp only [monitorLoop, waitForCompletion, waitLoop_locked]

/-- C7 (counterexample to the claim as stated): in normal mode, on a platform
with one VM whose snapshot never leaves the status "locked", the client is
constructed and the selection succeeds with that VM, yet `run` returns neither
success nor an error, with whatever fuel: the polling is unbounded, and the
purger is never reached. -/
theorem run_never_returns_while_locked :
    getAPI (plainDeps lockedPlatform) {} = .ok {} ∧
    (plainDeps lockedPlatform).GetVms {} ⟨(), []⟩
      = (.ok [{ ID := "1", Name := "a", Cluster := { Id := "c1" } }],
         ⟨(), [.request "GET" "vms" none]⟩) ∧
    ¬ ∃ fuel, (run (plainDeps lockedPlatform) lockedPlatform {} fuel ⟨(), []⟩).isSome = true := by
  refine ⟨rfl, rfl, ?_⟩
  rintro ⟨fuel, h⟩
  rw [run_of_create_none (plainDeps lockedPlatform) lockedPlatform {} fuel ⟨(), []⟩ _ {} _
    rfl rfl rfl (createSnapshots_locked fuel)] at h
  exact absurd h (by decide)

/-- C7 (amended): when client construction and VM selection succeed, then in
purge-only mode `run` hands the full selection to the purger, in the world
that the selection left (no snapshot is created or polled), and in normal mode,
when `createSnapshots` returns the monitor's succeeded subset, `run` hands that
subset to the purger. In both cases `run` returns `nil` iff the count the
purger returns equals the number of selected VMs, and an error otherwise; an
empty selection in purge-only mode is a success when the purger reports 0. -/
theorem run_purges_and_reports {σ : Type} (D : Deps σ) (P : Platform σ) (fl : Flags)
    (fuel : Nat) (w w1 : World σ) (a : Api) (vms : List Vm)
    (hapi : getAPI D fl = .ok a) (hsel : D.GetVms a w = (.ok vms, w1)) :
    (fl.purgeOnly = true →
      ∃ r, run D P fl fuel w = some (.returned r, (D.purgeOldSnapshots vms a w1).2) ∧
        (r = none ↔ (D.purgeOldSnapshots vms a w1).1 = (vms.length : Int)) ∧
        (vms = [] → (D.purgeOldSnapshots vms a w1).1 = 0 → r = none)) ∧
    (fl.purgeOnly = false → ∀ snapped w2,
      createSnapshots P fuel fl.desc vms w1 = some (.returned snapped, w2) →
      ∃ r, run D P fl fuel w = some (.returned r, (D.purgeOldSnapshots snapped a w2).2) ∧
        (r = none ↔ (D.purgeOldSnapshots snapped a w2).1 = (vms.length : Int))) := by
  constructor
  · intro hmode
    by_cases hcount : (D.purgeOldSnapshots vms a w1).1 = (vms.length : Int)
    · refine ⟨none, ?_, by simp [hcount], fun _ _ => rfl⟩
      unfold run
      simp [hapi, hsel, hmode, hcount]
    · refine ⟨some (Errorf "One or more errors occurred. See output above for more detail."),
        ?_, by simp [hcount], ?_⟩
      · unfold run
        simp [hapi, hsel, hmode, hcount]
      · intro hv h0
        rw [hv] at hcount h0
        exact absurd (by simpa using h0) hcount
  · intro hmode snapped w2 hc
    by_cases hcount : (D.purgeOldSnapshots snapped a w2).1 = (vms.length : Int)
    · refine ⟨none, ?_, by simp [hcount]⟩
      unfold run
      simp [hapi, hsel, hmode, hc, hcount]
    · refine ⟨some (Errorf "One or more errors occurred. See output above for more detail."),
        ?_, by simp [hcount]⟩
      unfold run
      simp [hapi, hsel, hmode, hc, hcount]

/-- Example for C7: a purge-only run over the two VMs of cluster `prod`, and a
normal run over one VM whose snapshot is ready at the third poll; both
succeed. -/
theorem run_purges_and_reports_witness :
    (getAPI (plainDeps inventoryPlatform) { cluster := "prod", purgeOnly := true }
        = .ok { ClusterFilter := "prod" } ∧
     (plainDeps inventoryPlatform).GetVms { ClusterFilter := "prod" } ⟨(), []⟩
        = (.ok [{ ID := "1", Name := "web1", Cluster := { Id := "c1" } },
                { ID := "2", Name := "web", Cluster := { Id := "c1" } }],
           ⟨(), [.request "GET" "clusters?search=prod" none, .request "GET" "vms" none]⟩) ∧
     run (plainDeps inventoryPlatform) inventoryPlatform { cluster := "prod", purgeOnly := true }
        0 ⟨(), []⟩
      = some (.returned none,
          ⟨(), [.request "GET" "clusters?search=prod" none, .request "GET" "vms" none]⟩)) ∧
    (getAPI (plainDeps pollingPlatform) {} = .ok {} ∧
     (plainDeps pollingPlatform).GetVms {} ⟨0, []⟩
        = (.ok [{ ID := "1", Name := "a", Cluster := { Id := "c1" } }],
           ⟨0, [.request "GET" "vms" none]⟩) ∧
     createSnapshots pollingPlatform 3 "oSnap generated snapshot"
        [{ ID := "1", Name := "a", Cluster := { Id := "c1" } }] ⟨0, [.request "GET" "vms" none]⟩
      = some (.returned [{ ID := "1", Name := "a" }],
          ⟨3, [.request "GET" "vms" none,
               .request "POST" "vms/1/snapshots"
                 (some "oSnap generated snapshot - created by oSnap"),
               .request "GET" "vms/1/snapshots/s1" none, .sleep 30,
               .request "GET" "vms/1/snapshots/s1" none, .sleep 30,
               .request "GET" "vms/1/snapshots/s1" none]⟩) ∧
     run (plainDeps pollingPlatform) pollingPlatform {} 3 ⟨0, []⟩
      = some (.returned none,
          ⟨3, [.request "GET" "vms" none,
               .request "POST" "vms/1/snapshots"
                 (some "oSnap generated snapshot - created by oSnap"),
               .request "GET" "vms/1/snapshots/s1" none, .sleep 30,
               .request "GET" "vms/1/snapshots/s1" none, .sleep 30,
               .request "GET" "vms/1/snapshots/s1" none]⟩)) := by
  refine ⟨⟨rfl, rfl, ?_⟩, ⟨rfl, rfl, rfl, ?_⟩⟩
  · obtain ⟨r, hr, hiff, _⟩ :=
      (run_purges_and_reports (plainDeps inventoryPlatform) inventoryPlatform
        { cluster := "prod", purgeOnly := true } 0 ⟨(), []⟩ _ { ClusterFilter := "prod" } _
        rfl rfl).1 rfl
    have hnone : r = none := hiff.mpr rfl
    rw [hr, hnone]
    rfl
  · obtain ⟨r, hr, hiff⟩ :=
      (run_purges_and_reports (plainDeps pollingPlatform) pollingPlatform {} 3 ⟨0, []⟩ _ {} _
        rfl rfl).2 rfl _ _ rfl
    have hnone : r = none := hiff.mpr rfl
    rw [hr, hnone]
    rfl

/-! ## Retention purger -/

theorem deleteSnapshots_eq {σ : Type} (P : Platform σ) (vm : Vm) :
    ∀ (l : List Snapshot) (w : World σ),
      deleteSnapshots P vm l w
        = (deletesAccepted P vm l w.plat,
           ⟨deleteStates P vm l w.plat, w.trace ++ l.map (deleteEvent vm)⟩)
  | [], w => by simp [deleteSnapshots, deletesAccepted, deleteStates]
  | x :: rest, w => by
    have ih := deleteSnapshots_eq P vm rest (DeleteSnapshot P vm.ID x.ID w).2
    have hd : (DeleteSnapshot P vm.ID x.ID w).2
        = ⟨(P.sendRequest ("vms/" ++ vm.ID ++ "/snapshots/" ++ x.ID) "DELETE" w.plat).2,
           w.trace ++ [deleteEvent vm x]⟩ := by
      unfold DeleteSnapshot
      simp only [World.step, deleteEvent]
      split <;> rfl
    have hr : (DeleteSnapshot P vm.ID x.ID w).1.isNone
        = (match (P.sendRequest ("vms/" ++ vm.ID ++ "/snapshots/" ++ x.ID) "DELETE"
            w.plat).1 with
          | .ok _ => true
          | .error _ => false) := by
      unfold DeleteSnapshot
      simp only []
      cases h : (P.sendRequest ("vms/" ++ vm.ID ++ "/snapshots/" ++ x.ID) "DELETE"
        w.plat).1 <;> simp
    rw [hd] at ih
    simp only [deleteSnapshots, hd, ih, hr, deletesAccepted, deleteStates, List.map_cons,
      List.append_assoc, List.singleton_append]

theorem purgeVm_eq {σ : Type} (P : Platform σ) (keep : Nat) (vm : Vm) (w : World σ)
    (snaps : List Snapshot)
    (hlist : (P.sendAndParseSnapshots (listPath vm) "GET" w.plat).1 = .ok snaps) :
    purgeVm P keep vm w
      = (deletesAccepted P vm (purgeCandidates keep (managedOf snaps))
            (P.sendAndParseSnapshots (listPath vm) "GET" w.plat).2,
         ⟨deleteStates P vm (purgeCandidates keep (managedOf snaps))
            (P.sendAndParseSnapshots (listPath vm) "GET" w.plat).2,
          w.trace ++ listEvent vm :: (purgeCandidates keep (managedOf snaps)).map
            (deleteEvent vm)⟩) := by
  have hpath : "vms/" ++ vm.ID ++ "/snapshots" = listPath vm := rfl
  unfold purgeVm GetCreatedSnapshots
  simp only [hpath, hlist, deleteSnapshots_eq, World.step, managedOf, listEvent,
    List.append_assoc, List.singleton_append]

theorem purgeOldSnapshots_append {σ : Type} (P : Platform σ) (keep : Nat) :
    ∀ (l1 l2 : List Vm) (w : World σ),
      purgeOldSnapshots P keep (l1 ++ l2) w
        = ((purgeOldSnapshots P keep l1 w).1
              + (purgeOldSnapshots P keep l2 (purgeOldSnapshots P keep l1 w).2).1,
           (purgeOldSnapshots P keep l2 (purgeOldSnapshots P keep l1 w).2).2)
  | [], l2, w => by simp [purgeOldSnapshots]
  | vm :: l1, l2, w => by
    have ih := purgeOldSnapshots_append P keep l1 l2 (purgeVm P keep vm w).2
    rw [List.cons_append]
    simp only [purgeOldSnapshots]
    rw [ih]
    simp only [Nat.add_assoc]

theorem purgeOldSnapshots_single {σ : Type} (P : Platform σ) (keep : Nat) (vm : Vm)
    (w : World σ) :
    purgeOldSnapshots P keep [vm] w
      = ((if (purgeVm P keep vm w).1 then 1 else 0), (purgeVm P keep vm w).2) := by
  simp [purgeOldSnapshots]

theorem listing_after_deletes {σ : Type} (P : Platform σ) (vm : Vm) (hon : Honours P vm) :
    ∀ (l : List Snapshot) (s : σ) (l0 : List Snapshot),
      (P.sendAndParseSnapshots (listPath vm) "GET" s).1 = .ok l0 →
      (P.sendAndParseSnapshots (listPath vm) "GET" (deleteStates P vm l s)).1
          = .ok (l0.filter (fun x => !(l.map (fun c => c.ID)).contains x.ID)) ∧
        deletesAccepted P vm l s = true
  | [], s, l0, h => by simp [deleteStates, deletesAccepted, h]
  | c :: rest, s, l0, h => by
    have h1 := hon.2.2 s c.ID l0 h
    have h2 := hon.2.1 s c.ID
    obtain ⟨ih1, ih2⟩ := listing_after_deletes P vm hon rest _ _ h1
    refine ⟨?_, ?_⟩
    · simp only [deleteStates, ih1, List.filter_filter, List.map_cons]
      congr 1
      apply List.filter_congr
      intro x _
      simp only [List.contains_cons, Bool.not_or, bne]
      rw [Bool.and_comm]
    · simp only [deletesAccepted, h2, ih2, Bool.and_self]

theorem filter_not_mem_left {α β : Type} [DecidableEq β] (f : α → β) (a b : List α)
    (hnd : ((a ++ b).map f).Nodup) :
    (a ++ b).filter (fun x => !(a.map f).contains (f x)) = b := by
  rw [List.map_append, List.nodup_append] at hnd
  obtain ⟨_, _, hdisj⟩ := hnd
  rw [List.filter_append]
  have ha : a.filter (fun x => !(a.map f).contains (f x)) = [] := by
    rw [List.filter_eq_nil_iff]
    intro x hx
    have hm : f x ∈ a.map f := List.mem_map_of_mem f hx
    simpa using hm
  have hb : b.filter (fun x => !(a.map f).contains (f x)) = b := by
    rw [List.filter_eq_self]
    intro x hx
    have hxb : f x ∈ b.map f := List.mem_map_of_mem f hx
    have : f x ∉ a.map f := fun hxa => hdisj hxa hxb
    simpa using this
  rw [ha, hb, List.nil_append]

theorem append_left_bne (a x y : String) : (a ++ x != a ++ y) = (x != y) := by
  have h : a ++ x = a ++ y ↔ x = y := by
    constructor
    · intro h
      have hd := congrArg String.data h
      simp only [String.data_append] at hd
      exact String.ext (List.append_cancel_left hd)
    · rintro rfl
      rfl
  have hb : (a ++ x == a ++ y) = (x == y) := by
    rw [Bool.eq_iff_iff, beq_iff_eq, beq_iff_eq]
    exact h
  simp only [bne, hb]

theorem storePlatform_honours : Honours storePlatform { ID := "1", Name := "a" } := by
  refine ⟨fun s l h => h, fun s id => rfl, ?_⟩
  intro s id l h
  have hl : l = s := by
    have h2 : (Except.ok s : Except String (List Snapshot)) = .ok l := h
    injection h2 with h3
    exact h3.symm
  subst hl
  show (Except.ok (List.filter
    (fun x => "vms/" ++ "1" ++ "/snapshots/" ++ x.ID != "vms/" ++ "1" ++ "/snapshots/" ++ id) l)
    : Except String (List Snapshot)) = _
  congr 1
  apply List.filter_congr
  intro x _
  exact append_left_bne _ _ _

theorem managed_after_deletes (snaps : List Snapshot) (keep : Nat)
    (hnd : (snaps.map (fun x => x.ID)).Nodup) :
    managedOf (snaps.filter (fun x =>
        !((purgeCandidates keep (managedOf snaps)).map (fun c => c.ID)).contains x.ID))
      = (managedOf snaps).drop ((managedOf snaps).length - keep) ∧
    (snaps.filter (fun x =>
        !((purgeCandidates keep (managedOf snaps)).map (fun c => c.ID)).contains x.ID)).filter
        (fun s => !HasSuffix s.Description snapshotSuffix)
      = snaps.filter (fun s => !HasSuffix s.Description snapshotSuffix) := by
  have hsub : (managedOf snaps).Sublist snaps := List.filter_sublist _
  have hndm : ((managedOf snaps).map (fun x => x.ID)).Nodup :=
    List.Nodup.sublist (List.Sublist.map _ hsub) hnd
  constructor
  · have hcomm : managedOf (snaps.filter (fun x =>
          !((purgeCandidates keep (managedOf snaps)).map (fun c => c.ID)).contains x.ID))
        = (managedOf snaps).filter (fun x =>
          !((purgeCandidates keep (managedOf snaps)).map (fun c => c.ID)).contains x.ID) := by
      unfold managedOf
      rw [List.filter_filter, List.filter_filter]
      apply List.filter_congr
      intro x _
      rw [Bool.and_comm]
    rw [hcomm]
    have key := filter_not_mem_left (fun x : Snapshot => x.ID)
      ((managedOf snaps).take ((managedOf snaps).length - keep))
      ((managedOf snaps).drop ((managedOf snaps).length - keep))
      (by rw [List.take_append_drop]; exact hndm)
    rw [List.take_append_drop] at key
    exact key
  · rw [List.filter_filter]
    apply List.filter_congr
    intro x hx
    cases hm : HasSuffix x.Description snapshotSuffix with
    | true => simp
    | false =>
      simp only [Bool.not_false, Bool.true_and, Bool.not_eq_true', List.contains_eq_any_beq,
        List.any_eq_false, List.mem_map, forall_exists_index, and_imp,
        forall_apply_eq_imp_iff₂, beq_iff_eq]
      intro c hc hid
      have hcm : c ∈ managedOf snaps := List.mem_of_mem_take hc
      have hcs : c ∈ snaps := hsub.subset hcm
      have hxc : x = c := List.inj_on_of_nodup_map hnd hx hcs hid
      have hmc : HasSuffix c.Description snapshotSuffix = true := by
        unfold managedOf at hcm
        exact (List.mem_filter.mp hcm).2
      rw [hxc, hmc] at hm
      exact absurd hm (by simp)

/-- C8 (counterexample to the claim as stated): with `N = 1` and the managed
snapshots `s_old1`, `s_old2`, `s1` on a platform that refuses every delete
request, the purge requests the deletion of the two oldest, counts no VM as
processed without error, and the three managed snapshots are still listed:
more than `N` remain. The purge records a failed deletion and goes on; it
does not retry. -/
theorem purgeOldSnapshots_refused_deletes_remain :
    purgeOldSnapshots refusingPlatform 1 [{ ID := "1", Name := "a" }] ⟨(), []⟩
      = (0, ⟨(), [.request "GET" "vms/1/snapshots" none,
                  .request "DELETE" "vms/1/snapshots/s_old1" none,
                  .request "DELETE" "vms/1/snapshots/s_old2" none]⟩) ∧
    (GetCreatedSnapshots refusingPlatform "1"
        (purgeOldSnapshots refusingPlatform 1 [{ ID := "1", Name := "a" }] ⟨(), []⟩).2).1
      = .ok [{ ID := "s_old1", Description := "nightly - created by oSnap" },
             { ID := "s_old2", Description := "nightly - created by oSnap" },
             { ID := "s1", Description := "nightly - created by oSnap" }] := by
  exact ⟨rfl, rfl⟩

/-- C8 (amended): let `vm` stand anywhere in the list of VMs to purge, and let
`snaps` be the listing of its snapshots at its turn, with managed part
`managed`, oldest first. For every retention count `N` the purge sends for
`vm`, after the listing, one delete request through the client for each
snapshot of `managed.take (managed.length - N)`, in order, and no other; then
it purges the VMs that follow. So it requests no deletion when `managed` has
`N` or fewer elements, and when it has `N + k` elements with `k > 0` it
requests the deletion of exactly the `k` oldest. The VM counts as processed
iff every delete request is answered without error. On a platform that carries
out the deletes of `vm`, with distinct snapshot ids, every request succeeds
and the listing after the purge holds, as managed snapshots, exactly the last
`N` of `managed` (all of them when there are fewer): at most `N`, the most
recent; and every snapshot without the marker is still listed. -/
theorem purgeOldSnapshots_retention {σ : Type} (P : Platform σ) (keep : Nat)
    (pre : List Vm) (vm : Vm) (post : List Vm) (w : World σ) (snaps : List Snapshot)
    (hlist : (P.sendAndParseSnapshots (listPath vm) "GET"
      (purgeOldSnapshots P keep pre w).2.plat).1 = .ok snaps) :
    ((managedOf snaps).length ≤ keep → purgeCandidates keep (managedOf snaps) = []) ∧
    (∀ k, 0 < k → (managedOf snaps).length = keep + k →
      purgeCandidates keep (managedOf snaps) = (managedOf snaps).take k ∧
      (purgeCandidates keep (managedOf snaps)).length = k ∧
      managedOf snaps = purgeCandidates keep (managedOf snaps) ++ (managedOf snaps).drop k ∧
      ((managedOf snaps).drop k).length = keep) ∧
    (purgeOldSnapshots P keep (pre ++ [vm]) w).2
      = ⟨deleteStates P vm (purgeCandidates keep (managedOf snaps))
            (P.sendAndParseSnapshots (listPath vm) "GET"
              (purgeOldSnapshots P keep pre w).2.plat).2,
         (purgeOldSnapshots P keep pre w).2.trace
            ++ listEvent vm :: (purgeCandidates keep (managedOf snaps)).map (deleteEvent vm)⟩ ∧
    (purgeOldSnapshots P keep (pre ++ [vm]) w).1
      = (purgeOldSnapshots P keep pre w).1
          + (if deletesAccepted P vm (purgeCandidates keep (managedOf snaps))
                (P.sendAndParseSnapshots (listPath vm) "GET"
                  (purgeOldSnapshots P keep pre w).2.plat).2 then 1 else 0) ∧
    purgeOldSnapshots P keep (pre ++ vm :: post) w
      = ((purgeOldSnapshots P keep (pre ++ [vm]) w).1
            + (purgeOldSnapshots P keep post (purgeOldSnapshots P keep (pre ++ [vm]) w).2).1,
         (purgeOldSnapshots P keep post (purgeOldSnapshots P keep (pre ++ [vm]) w).2).2) ∧
    (Honours P vm → (snaps.map (fun x => x.ID)).Nodup →
      deletesAccepted P vm (purgeCandidates keep (managedOf snaps))
          (P.sendAndParseSnapshots (listPath vm) "GET"
            (purgeOldSnapshots P keep pre w).2.plat).2 = true ∧
      ∃ left,
        (P.sendAndParseSnapshots (listPath vm) "GET"
            (purgeOldSnapshots P keep (pre ++ [vm]) w).2.plat).1 = .ok left ∧
        managedOf left = (managedOf snaps).drop ((managedOf snaps).length - keep) ∧
        (managedOf left).length = min keep (managedOf snaps).length ∧
        (managedOf left).length ≤ keep ∧
        left.filter (fun s => !HasSuffix s.Description snapshotSuffix)
          = snaps.filter (fun s => !HasSuffix s.Description snapshotSuffix)) := by
  have hvm := purgeVm_eq P keep vm (purgeOldSnapshots P keep pre w).2 snaps hlist
  have hone : purgeOldSnapshots P keep (pre ++ [vm]) w
      = ((purgeOldSnapshots P keep pre w).1
            + (if (purgeVm P keep vm (purgeOldSnapshots P keep pre w).2).1 then 1 else 0),
         (purgeVm P keep vm (purgeOldSnapshots P keep pre w).2).2) := by
    rw [purgeOldSnapshots_append, purgeOldSnapshots_single]
  refine ⟨?_, ?_, ?_, ?_, ?_, ?_⟩
  · intro hle
    unfold purgeCandidates
    rw [Nat.sub_eq_zero_of_le hle]
    rfl
  · intro k hk hlen
    have hk2 : (managedOf snaps).length - keep = k := by omega
    unfold purgeCandidates
    rw [hk2]
    refine ⟨rfl, ?_, (List.take_append_drop k _).symm, ?_⟩
    · rw [List.length_take]; omega
    · rw [List.length_drop]; omega
  · rw [hone, hvm]
  · rw [hone, hvm]
  · have happ : pre ++ vm :: post = (pre ++ [vm]) ++ post := by simp
    rw [happ, purgeOldSnapshots_append]
  · intro hon hnd
    have hstable := hon.1 _ _ hlist
    obtain ⟨hl, hacc⟩ := listing_after_deletes P vm hon
      (purgeCandidates keep (managedOf snaps)) _ snaps hstable
    obtain ⟨hman, hun⟩ := managed_after_deletes snaps keep hnd
    refine ⟨hacc, _, ?_, hman, ?_, ?_, hun⟩
    · rw [hone, hvm]
      exact hl
    · rw [hman, List.length_drop]; omega
    · rw [hman, List.length_drop]; omega

/-- Example for C8: with `N = 2` and the snapshots `manual` (untagged), `s_old1`,
`s_old2`, `s1` on a platform that carries out deletes, the purge deletes
`s_old1` only: afterwards `manual`, `s_old2` and `s1` are stored. -/
theorem purgeOldSnapshots_retention_witness :
    (storePlatform.sendAndParseSnapshots (listPath { ID := "1", Name := "a" }) "GET"
        (purgeOldSnapshots storePlatform 2 [] ⟨storedSnapshots, []⟩).2.plat).1
      = .ok storedSnapshots ∧
    (purgeOldSnapshots storePlatform 2 ([] ++ [{ ID := "1", Name := "a" }])
        ⟨storedSnapshots, []⟩).2
      = ⟨[{ ID := "manual", Description := "before upgrade" },
          { ID := "s_old2", Description := "nightly - created by oSnap" },
          { ID := "s1", Description := "nightly - created by oSnap" }],
         [.request "GET" "vms/1/snapshots" none,
          .request "DELETE" "vms/1/snapshots/s_old1" none]⟩ ∧
    Honours storePlatform { ID := "1", Name := "a" } ∧
    (storedSnapshots.map (fun x => x.ID)).Nodup :=
  ⟨rfl,
   (purgeOldSnapshots_retention storePlatform 2 [] { ID := "1", Name := "a" } []
      ⟨storedSnapshots, []⟩ storedSnapshots rfl).2.2.1.trans rfl,
   storePlatform_honours, by decide⟩

end OSnap
